import Mathlib

/-!
# The protocol state machine of `socket_e-puck2.c`

A shallow embedding of `socket_task` (src/Projects/ESP32_E-Puck_2/main/socket_e-puck2.c).

* The locals of `socket_task` are the fields of `TaskState`.
* Everything outside the task (the event group, the socket layer, the frame
  sources) is the `World`: the value each call returns is read from the world,
  indexed by the number of calls of that kind made so far.  The results of
  `recv` are a finite list: once it is used up, a further `recv` blocks for ever
  and the iteration has no result (`none`).
* Every external call is appended to a trace of `Event`s (`printf` logging and
  the read-only `xEventGroupGetBits` are not traced).
* Machine integers are `Nat`/`Int` with explicit wrap-around (`to_uint8`,
  `to_int16`, ...).
* `actuators_buff` is the declared array of 8 bytes.  A byte `recv` stores at an
  offset outside the array is not stored in the array; it is recorded, with its
  offset, in `stray`.  What such a store does to the memory next to the array is
  not defined by C: here it changes no other local.
* A call that never returns (the wait for `CONNECTED_BIT` while the bit is down,
  a `recv` with no result left) gives the iteration no result: `none`.
-/

namespace EPuck2Socket

/-! ## Constants -/

/-- The service port, macro `TCP_PORT`. -/
def TCP_PORT : Nat := 1000

/-- The size of the image, macro `MAX_BUFF_SIZE`. -/
def MAX_BUFF_SIZE : Nat := 38400

/-- The size of a full image chunk, macro `SPI_PACKET_MAX_SIZE`. -/
def SPI_PACKET_MAX_SIZE : Nat := 4092

/-- The constant `CONNECTED_BIT = BIT0`. -/
def CONNECTED_BIT : Nat := 1

/-- The constant `DISCONNECTED_BIT = BIT1`. -/
def DISCONNECTED_BIT : Nat := 2

/-- The constant `DATA_READY_BIT = BIT2`. -/
def DATA_READY_BIT : Nat := 4

/-- Number of elements of `uint8_t actuators_buff[8]`. -/
def ACTUATORS_BUFF_LEN : Nat := 8

/-! ## Machine integers -/

/-- Conversion to `uint8_t`. -/
def to_uint8 (v : Int) : Nat := (v % 256).toNat

/-- Conversion to `uint16_t`. -/
def to_uint16 (v : Int) : Nat := (v % 65536).toNat

/-- Conversion to `uint32_t` (also `unsigned int` on the target). -/
def to_uint32 (v : Int) : Nat := (v % 4294967296).toNat

/-- Conversion to `int16_t` (two's complement wrap-around). -/
def to_int16 (v : Int) : Int := (v + 32768) % 65536 - 32768

/-! ## Events and the world -/

/-- The first argument of `show_socket_error_reason`: the place that reports. -/
inductive ErrSite where
  | create_server
  | bind_server
  | listen_server
  | accept_server
  | recv_cmd
  | send_image_header
  | send_data
  | send_sensor_header
  | send_sensor_data
  | send_empty_header
deriving DecidableEq, Repr

/-- The buffer a `send` reads from. -/
inductive Buf where
  | header
  | img
  | sensors
deriving DecidableEq, Repr

/-- One external call made by `socket_task`, with its arguments and result. -/
inductive Event where
  | xEventGroupWaitBits (bits : Nat)
  | close (fd : Int)
  | socket (ret : Int)
  | bind (fd : Int) (port : Nat) (ret : Int)
  | listen (fd : Int) (backlog : Nat) (ret : Int)
  | accept (fd : Int) (ret : Int)
  | recv (fd : Int) (off : Int) (count : Nat) (ret : Int)
  | send (fd : Int) (src : Buf) (off : Nat) (len : Nat) (data : List Nat) (ret : Int)
  | uart_set_actuators_state (buf : List Nat)
  | spi_get_data_ptr
  | uart_get_data_ptr
  | rgb_led2_gpio_set (r : Nat) (g : Nat) (b : Nat)
  | show_socket_error_reason (site : ErrSite) (fd : Int)
  | vTaskDelay (ticks : Nat)
deriving DecidableEq, Repr

/-- The outcome of one `recv` call: an error (the call returns -1), or the bytes
the call stored at the destination (the call returns their number, 0 for none). -/
inductive RecvResult where
  | error
  | data (bytes : List Nat)
deriving DecidableEq, Repr

/-- The value `recv` returns. -/
def RecvResult.ret : RecvResult → Int
  | RecvResult.error => -1
  | RecvResult.data bytes => (bytes.length : Int)

/-- The bytes `recv` stored at the destination pointer. -/
def RecvResult.stored : RecvResult → List Nat
  | RecvResult.error => []
  | RecvResult.data bytes => bytes

/-- Everything outside the task. -/
structure World where
  /-- bits of `socket_event_group` -/
  evg_bits : Nat
  /-- result of the n-th `socket` call -/
  socket_ret : Nat → Int
  /-- result of the n-th `bind` call -/
  bind_ret : Nat → Int
  /-- result of the n-th `listen` call -/
  listen_ret : Nat → Int
  /-- result of the n-th `accept` call -/
  accept_ret : Nat → Int
  /-- result of the n-th `send` call -/
  send_ret : Nat → Int
  /-- data of the buffer the n-th `spi_get_data_ptr` call returns -/
  spi_data : Nat → List Nat
  /-- data of the buffer the n-th `uart_get_data_ptr` call returns -/
  uart_data : Nat → List Nat
  /-- results of the `recv` calls still to come -/
  recv_rets : List RecvResult
  n_socket : Nat
  n_bind : Nat
  n_listen : Nat
  n_accept : Nat
  n_send : Nat
  n_spi : Nat
  n_uart : Nat

/-- The locals of `socket_task`. -/
structure TaskState where
  server_sock : Int
  client_sock : Int
  conn_state : Nat
  /-- data of the buffer `img_buff` points to (empty for `NULL`) -/
  img_buff : List Nat
  num_packets : Nat
  remaining_bytes : Nat
  packet_id : Nat
  to_recv : Nat
  len : Int
  /-- data of the buffer `sensors_buff` points to (empty for `NULL`) -/
  sensors_buff : List Nat
  /-- the array `uint8_t actuators_buff[8]` -/
  actuators_buff : List Nat
  /-- bytes stored through `&actuators_buff[i]` at an offset outside the array -/
  stray : List (Int × Nat)
  /-- the array element `header[0]` -/
  header : Nat
  conn_error : Nat

/-- The task together with its surroundings and the trace of calls made so far. -/
structure Sys where
  w : World
  s : TaskState
  tr : List Event

/-- The locals as initialised at the head of `socket_task`.  The two arrays have
no initialiser: `buff0 i` is the first content of `actuators_buff[i]`, for the 8
indices of the array, and `header0` that of `header[0]`. -/
def TaskState.init (buff0 : Nat → Nat) (header0 : Nat) : TaskState :=
  { server_sock := 0, client_sock := 0, conn_state := 0, img_buff := [],
    num_packets := 0, remaining_bytes := 0, packet_id := 0, to_recv := 0, len := 0,
    sensors_buff := [], actuators_buff := (List.range ACTUATORS_BUFF_LEN).map buff0,
    stray := [], header := header0, conn_error := 0 }

/-! ## The event setters -/

/-- The function `socket_set_event_connected`: `xEventGroupSetBits(socket_event_group, CONNECTED_BIT)`. -/
def socket_set_event_connected (w : World) : World :=
  { w with evg_bits := w.evg_bits ||| CONNECTED_BIT }

/-- The function `socket_set_event_disconnected`. -/
def socket_set_event_disconnected (w : World) : World :=
  { w with evg_bits := w.evg_bits ||| DISCONNECTED_BIT }

/-- The function `socket_set_event_data_ready`. -/
def socket_set_event_data_ready (w : World) : World :=
  { w with evg_bits := w.evg_bits ||| DATA_READY_BIT }

/-! ## External calls -/

/-- Append a call to the trace. -/
def emit (e : Event) (c : Sys) : Sys :=
  { c with tr := c.tr ++ [e] }

/-- The bytes `send(client_sock, &src[off], len, 0)` reads. -/
def send_data (s : TaskState) (src : Buf) (off len : Nat) : List Nat :=
  match src with
  | Buf.header => ([s.header].drop off).take len
  | Buf.img => (s.img_buff.drop off).take len
  | Buf.sensors => (s.sensors_buff.drop off).take len

/-- The call `send(client_sock, &src[off], len, 0)`: the value returned and the system after the call. -/
def do_send (src : Buf) (off len : Nat) (c : Sys) : Int × Sys :=
  (c.w.send_ret c.w.n_send,
   { c with
     w := { c.w with n_send := c.w.n_send + 1 },
     tr := c.tr ++ [Event.send c.s.client_sock src off len (send_data c.s src off len)
                      (c.w.send_ret c.w.n_send)] })

/-- The call `uart_get_data_ptr()`: the data of the buffer returned and the system after the call. -/
def do_uart_get_data_ptr (c : Sys) : List Nat × Sys :=
  (c.w.uart_data c.w.n_uart,
   { c with w := { c.w with n_uart := c.w.n_uart + 1 }, tr := c.tr ++ [Event.uart_get_data_ptr] })

/-- The call `spi_get_data_ptr()`: the data of the buffer returned and the system after the call. -/
def do_spi_get_data_ptr (c : Sys) : List Nat × Sys :=
  (c.w.spi_data c.w.n_spi,
   { c with w := { c.w with n_spi := c.w.n_spi + 1 }, tr := c.tr ++ [Event.spi_get_data_ptr] })

/-- Store `bytes` through `&buf[off]`, one after the other: a byte whose offset is
an index of the array goes into the array, any other is recorded in `stray`. -/
def store_bytes (buf : List Nat) (stray : List (Int × Nat)) (off : Int) :
    List Nat → List Nat × List (Int × Nat)
  | [] => (buf, stray)
  | b :: bs =>
    if 0 ≤ off ∧ off < (buf.length : Int) then
      store_bytes (buf.set off.toNat b) stray (off + 1) bs
    else
      store_bytes buf (stray ++ [(off, b)]) (off + 1) bs

/-! ## The states of the switch -/

/-- State 0 of the switch (`case 0`): wait for the connection to the access point.  The wait returns once
`CONNECTED_BIT` is raised (it is not cleared on exit); until then the task is
blocked. -/
def case_wait_connect (c : Sys) : Option Sys :=
  if c.w.evg_bits &&& CONNECTED_BIT = CONNECTED_BIT then
    let c1 := emit (Event.xEventGroupWaitBits CONNECTED_BIT) c
    some { c1 with s := { c1.s with conn_state := 1 } }
  else none

/-- State 1 of the switch (`case 1`): create the TCP server. -/
def case_listen (c : Sys) : Sys :=
  let fd := c.w.socket_ret c.w.n_socket
  let c1 : Sys := { c with w := { c.w with n_socket := c.w.n_socket + 1 },
                           s := { c.s with server_sock := fd },
                           tr := c.tr ++ [Event.socket fd] }
  if fd < 0 then
    emit (Event.show_socket_error_reason ErrSite.create_server fd) c1
  else
    let rb := c1.w.bind_ret c1.w.n_bind
    let c2 : Sys := { c1 with w := { c1.w with n_bind := c1.w.n_bind + 1 },
                              tr := c1.tr ++ [Event.bind fd TCP_PORT rb] }
    if rb < 0 then
      emit (Event.close fd) (emit (Event.show_socket_error_reason ErrSite.bind_server fd) c2)
    else
      let rl := c2.w.listen_ret c2.w.n_listen
      let c3 : Sys := { c2 with w := { c2.w with n_listen := c2.w.n_listen + 1 },
                                tr := c2.tr ++ [Event.listen fd 1 rl] }
      if rl < 0 then
        emit (Event.close fd) (emit (Event.show_socket_error_reason ErrSite.listen_server fd) c3)
      else
        { c3 with s := { c3.s with conn_state := 2 } }

/-- State 2 of the switch (`case 2`): wait for the connection from a peer. -/
def case_accept (c : Sys) : Sys :=
  let c0 := emit (Event.rgb_led2_gpio_set 1 0 1) c
  let fd := c0.w.accept_ret c0.w.n_accept
  let c1 : Sys := { c0 with w := { c0.w with n_accept := c0.w.n_accept + 1 },
                            s := { c0.s with client_sock := fd },
                            tr := c0.tr ++ [Event.accept c0.s.server_sock fd] }
  if fd < 0 then
    emit (Event.close c1.s.server_sock)
      (emit (Event.show_socket_error_reason ErrSite.accept_server fd) c1)
  else
    { c1 with s := { c1.s with conn_state := 3, conn_error := 0 } }

/-- The loop `while (to_recv > 0) { len = recv(...); ... }` of `case 3`, by recursion
on the results of the `recv` calls still to come.  When they are used up while
bytes are still awaited the loop never ends: `none`. -/
def recv_cmd_loop : List RecvResult → Sys → Option Sys
  | [], c => if c.s.to_recv > 0 then none else some c
  | r :: rest, c =>
    if c.s.to_recv > 0 then
      let off : Int := 9 - (c.s.to_recv : Int)
      let len := to_int16 r.ret
      let mem := store_bytes c.s.actuators_buff c.s.stray off r.stored
      let c1 : Sys :=
        { c with w := { c.w with recv_rets := rest },
                 s := { c.s with len := len, actuators_buff := mem.1, stray := mem.2 },
                 tr := c.tr ++ [Event.recv c.s.client_sock off c.s.to_recv r.ret] }
      if len > 0 then
        recv_cmd_loop rest
          { c1 with s := { c1.s with to_recv := to_uint8 ((c1.s.to_recv : Int) - len) } }
      else if len < 0 then
        some (emit (Event.show_socket_error_reason ErrSite.recv_cmd c1.s.client_sock)
          { c1 with s := { c1.s with conn_error := 1 } })
      else
        recv_cmd_loop rest c1
    else some c

/-- The mode byte `actuators_buff[1]`. -/
def mode_byte (s : TaskState) : Nat := s.actuators_buff.getD 1 0

/-- State 3 of the switch (`case 3`): receive a command (new actuators values). -/
def case_recv_cmd (c : Sys) : Option Sys :=
  match recv_cmd_loop c.w.recv_rets { c with s := { c.s with to_recv := 9 } } with
  | none => none
  | some c1 =>
    if c1.s.conn_error = 0 then
      let c2 := emit (Event.uart_set_actuators_state c1.s.actuators_buff) c1
      if mode_byte c2.s = 0 then
        some { c2 with s := { c2.s with conn_state := 6 } }
      else if (mode_byte c2.s) &&& 1 ≠ 0 then
        some { c2 with s := { c2.s with conn_state := 4 } }
      else if (mode_byte c2.s) &&& 2 ≠ 0 then
        some { c2 with s := { c2.s with conn_state := 5 } }
      else some c2
    else
      some { c1 with s := { c1.s with conn_state := 2 } }

/-- The loop `for (packet_id = 0; packet_id < num_packets; packet_id++)` of `case 4`,
by recursion on `num_packets - packet_id`, the iterations left: the loop test
`packet_id < num_packets` holds exactly when that number is not 0. -/
def send_image_loop : Nat → Sys → Sys
  | 0, c => c
  | n + 1, c =>
    let r := do_send Buf.img (to_uint32 (SPI_PACKET_MAX_SIZE * c.s.packet_id)) SPI_PACKET_MAX_SIZE c
    let c1 : Sys := { r.2 with s := { r.2.s with len := to_int16 r.1 } }
    if c1.s.len < 0 then
      emit (Event.show_socket_error_reason ErrSite.send_data c1.s.client_sock)
        { c1 with s := { c1.s with conn_error := 1 } }
    else
      send_image_loop n { c1 with s := { c1.s with packet_id := to_uint32 (c1.s.packet_id + 1) } }

/-- State 4, lines 159-166: fetch the image frame, compute the number of full
chunks and the size of the last segment, and set the header tag 0x01. -/
def send_image_prepare (c : Sys) : Sys :=
  let c0 := emit (Event.rgb_led2_gpio_set 1 0 1) c
  let p := do_spi_get_data_ptr c0
  let c1 : Sys := emit (Event.rgb_led2_gpio_set 1 1 1) { p.2 with s := { p.2.s with img_buff := p.1 } }
  let c2 : Sys := { c1 with s := { c1.s with
                      num_packets := to_uint16 (MAX_BUFF_SIZE / SPI_PACKET_MAX_SIZE),
                      remaining_bytes := to_uint32 (MAX_BUFF_SIZE % SPI_PACKET_MAX_SIZE) } }
  let c3 := emit (Event.rgb_led2_gpio_set 1 1 0) c2
  { c3 with s := { c3.s with header := 1 } }

/-- State 4, lines 180-186: the last image segment, sent if there is one and no
error occurred. -/
def send_image_remainder (c : Sys) : Sys :=
  if c.s.remaining_bytes > 0 ∧ c.s.conn_error = 0 then
    let r := do_send Buf.img (to_uint32 (SPI_PACKET_MAX_SIZE * c.s.packet_id))
               c.s.remaining_bytes c
    let c1 : Sys := { r.2 with s := { r.2.s with len := to_int16 r.1 } }
    if c1.s.len < 0 then
      emit (Event.show_socket_error_reason ErrSite.send_data c1.s.client_sock)
        { c1 with s := { c1.s with conn_error := 1 } }
    else c1
  else c

/-- State 4, lines 188-198: the next state once the image is out. -/
def send_image_finish (c : Sys) : Sys :=
  let c8 := emit (Event.rgb_led2_gpio_set 1 1 1) c
  if c8.s.conn_error = 0 then
    if (mode_byte c8.s) &&& 2 ≠ 0 then
      { c8 with s := { c8.s with conn_state := 5 } }
    else
      let u := do_uart_get_data_ptr c8
      { u.2 with s := { u.2.s with conn_state := 3 } }
  else
    { c8 with s := { c8.s with conn_state := 2 } }

/-- State 4 of the switch (`case 4`): exchange the image. -/
def case_send_image (c : Sys) : Sys :=
  let h := do_send Buf.header 0 1 (send_image_prepare c)
  if h.1 < 0 then
    let c5 := emit (Event.show_socket_error_reason ErrSite.send_image_header h.2.s.client_sock) h.2
    { c5 with s := { c5.s with conn_state := 2 } }
  else
    let c5 : Sys := { h.2 with s := { h.2.s with packet_id := 0 } }
    send_image_finish
      (send_image_remainder (send_image_loop (c5.s.num_packets - c5.s.packet_id) c5))

/-- State 5 of the switch (`case 5`): send the sensors values.  `UART_RX_BUFF_SIZE` is a constant of
`uart_e-puck2.h`. -/
def case_send_sensors (UART_RX_BUFF_SIZE : Nat) (c : Sys) : Sys :=
  let c0 := emit (Event.rgb_led2_gpio_set 0 1 1) c
  let u := do_uart_get_data_ptr c0
  let c1 : Sys := emit (Event.rgb_led2_gpio_set 1 1 1) { u.2 with s := { u.2.s with sensors_buff := u.1 } }
  let c2 : Sys := { c1 with s := { c1.s with header := 2 } }
  let h := do_send Buf.header 0 1 c2
  if h.1 < 0 then
    let c3 := emit (Event.show_socket_error_reason ErrSite.send_sensor_header h.2.s.client_sock) h.2
    { c3 with s := { c3.s with conn_state := 2 } }
  else
    let d := do_send Buf.sensors 0 UART_RX_BUFF_SIZE h.2
    if d.1 < 0 then
      let c3 := emit (Event.show_socket_error_reason ErrSite.send_sensor_data d.2.s.client_sock) d.2
      { c3 with s := { c3.s with conn_state := 2 } }
    else
      let c3 := emit (Event.rgb_led2_gpio_set 1 1 1) d.2
      { c3 with s := { c3.s with conn_state := 3 } }

/-- State 6 of the switch (`case 6`): acknowledge an idle command. -/
def case_send_empty (c : Sys) : Sys :=
  let c0 : Sys := { c with s := { c.s with header := 4 } }
  let h := do_send Buf.header 0 1 c0
  if h.1 < 0 then
    let c1 := emit (Event.show_socket_error_reason ErrSite.send_empty_header h.2.s.client_sock) h.2
    { c1 with s := { c1.s with conn_state := 2 } }
  else
    let u := do_uart_get_data_ptr h.2
    { u.2 with s := { u.2.s with sensors_buff := u.1, conn_state := 3 } }

/-- The `switch (conn_state)`. -/
def dispatch (UART_RX_BUFF_SIZE : Nat) (c : Sys) : Option Sys :=
  match c.s.conn_state with
  | 0 => case_wait_connect c
  | 1 => some (case_listen c)
  | 2 => some (case_accept c)
  | 3 => case_recv_cmd c
  | 4 => some (case_send_image c)
  | 5 => some (case_send_sensors UART_RX_BUFF_SIZE c)
  | 6 => some (case_send_empty c)
  | _ => some c

/-- The disconnect check at the top of the loop body. -/
def check_disconnected (c : Sys) : Sys :=
  if c.w.evg_bits &&& DISCONNECTED_BIT ≠ 0 then
    let c1 := emit (Event.close c.s.server_sock) c
    { c1 with s := { c1.s with conn_state := 0 } }
  else c

/-- One iteration of the `while (1)` of `socket_task`. -/
def socket_task_iter (UART_RX_BUFF_SIZE : Nat) (c : Sys) : Option Sys :=
  match dispatch UART_RX_BUFF_SIZE (check_disconnected c) with
  | none => none
  | some c1 => some (emit (Event.vTaskDelay 10) c1)

/-- The first `n` iterations of the `while (1)` of `socket_task`. -/
def socket_task_run (UART_RX_BUFF_SIZE : Nat) : Nat → Sys → Option Sys
  | 0, c => some c
  | n + 1, c =>
    match socket_task_iter UART_RX_BUFF_SIZE c with
    | none => none
    | some c1 => socket_task_run UART_RX_BUFF_SIZE n c1

/-! ## Reading a trace -/

/-- The source buffer, offset and length requested of a `send` call. -/
def Event.send_args : Event → Option (Buf × Nat × Nat)
  | Event.send _ src off len _ _ => some (src, off, len)
  | _ => none

/-- The bytes a `send` call was asked to send; none for any other call. -/
def Event.payload : Event → List Nat
  | Event.send _ _ _ _ data _ => data
  | _ => []

/-- The `send` calls of a trace, as (source buffer, offset, length requested). -/
def sends_of (tr : List Event) : List (Buf × Nat × Nat) :=
  tr.filterMap Event.send_args

/-- The bytes the `send` calls of a trace were asked to send, in order. -/
def sent_bytes (tr : List Event) : List Nat :=
  (tr.map Event.payload).flatten

/-- Whether an event is a `recv` call. -/
def Event.is_recv : Event → Bool
  | Event.recv _ _ _ _ => true
  | _ => false

/-- The system `c` after some turns of the receive loop: of the world only the
pending `recv` results changed, of the locals only `to_recv`, `len` and the
memory written through `actuators_buff`, and `evs` was appended to the trace. -/
def recv_upd (c : Sys) (rets : List RecvResult) (to_recv : Nat) (len : Int)
    (mem : List Nat × List (Int × Nat)) (evs : List Event) : Sys :=
  { c with w := { c.w with recv_rets := rets },
           s := { c.s with to_recv := to_recv, len := len,
                           actuators_buff := mem.1, stray := mem.2 },
           tr := c.tr ++ evs }

/-- The state the `if` chain on the mode byte of `case 3` selects; `cur` when no
branch is taken. -/
def cmd_next_state (mode cur : Nat) : Nat :=
  if mode = 0 then 6 else if mode &&& 1 ≠ 0 then 4 else if mode &&& 2 ≠ 0 then 5 else cur

/-- The system after `case 3` has received a whole command without error: the
receive loop has left `mem`, the Actuator Sink was called on the array, and the
mode byte has selected the next state. -/
def cmd_received (c : Sys) (rets : List RecvResult) (len : Int)
    (mem : List Nat × List (Int × Nat)) (evs : List Event) : Sys :=
  { c with w := { c.w with recv_rets := rets },
           s := { c.s with to_recv := 0, len := len, actuators_buff := mem.1, stray := mem.2,
                           conn_state := cmd_next_state (mem.1.getD 1 0) c.s.conn_state },
           tr := c.tr ++ (evs ++ [Event.uart_set_actuators_state mem.1]) }

/-- The `send` calls of `n` turns of the chunk loop of state 4, the first for
chunk `p`, when `j` calls of `send` were made before. -/
def image_chunk_events (fd : Int) (img : List Nat) (ret : Nat → Int) : Nat → Nat → Nat → List Event
  | 0, _, _ => []
  | n + 1, p, j =>
    Event.send fd Buf.img (SPI_PACKET_MAX_SIZE * p) SPI_PACKET_MAX_SIZE
        ((img.drop (SPI_PACKET_MAX_SIZE * p)).take SPI_PACKET_MAX_SIZE) (ret j)
      :: image_chunk_events fd img ret n (p + 1) (j + 1)

/-- The system `c` after `n` turns of the chunk loop without error. -/
def image_loop_upd (c : Sys) (n : Nat) (l : Int) : Sys :=
  { c with w := { c.w with n_send := c.w.n_send + n },
           s := { c.s with packet_id := c.s.packet_id + n, len := l },
           tr := c.tr ++ image_chunk_events c.s.client_sock c.s.img_buff c.w.send_ret n
                   c.s.packet_id c.w.n_send }

/-- The system `c` of state 4 once the header is sent, before the chunk loop. -/
def image_begun (c : Sys) : Sys :=
  { c with w := { c.w with n_spi := c.w.n_spi + 1, n_send := c.w.n_send + 1 },
           s := { c.s with img_buff := c.w.spi_data c.w.n_spi, num_packets := 9,
                           remaining_bytes := 1572, header := 1, packet_id := 0 },
           tr := c.tr ++ [Event.rgb_led2_gpio_set 1 0 1, Event.spi_get_data_ptr,
                   Event.rgb_led2_gpio_set 1 1 1, Event.rgb_led2_gpio_set 1 1 0,
                   Event.send c.s.client_sock Buf.header 0 1 [1] (c.w.send_ret c.w.n_send)] }

/-- The calls of state 4 up to line 188 when no `send` fails: the header, the 9
full chunks, the last segment. -/
def image_events (fd : Int) (img : List Nat) (ret : Nat → Int) (j : Nat) : List Event :=
  [Event.rgb_led2_gpio_set 1 0 1, Event.spi_get_data_ptr, Event.rgb_led2_gpio_set 1 1 1,
   Event.rgb_led2_gpio_set 1 1 0, Event.send fd Buf.header 0 1 [1] (ret j)]
  ++ image_chunk_events fd img ret 9 0 (j + 1)
  ++ [Event.send fd Buf.img 36828 1572 ((img.drop 36828).take 1572) (ret (j + 10)),
      Event.rgb_led2_gpio_set 1 1 1]

/-- The system `c` of state 4 at line 188 when no `send` failed. -/
def image_sent (c : Sys) : Sys :=
  { c with w := { c.w with n_spi := c.w.n_spi + 1, n_send := c.w.n_send + 11 },
           s := { c.s with img_buff := c.w.spi_data c.w.n_spi, num_packets := 9,
                           remaining_bytes := 1572, header := 1, packet_id := 9,
                           len := c.w.send_ret (c.w.n_send + 10) },
           tr := c.tr ++ image_events c.s.client_sock (c.w.spi_data c.w.n_spi) c.w.send_ret
                   c.w.n_send }

/-- The system `c` at the end of state 4 when no `send` failed. -/
def image_done (c : Sys) : Sys :=
  if (mode_byte c.s) &&& 2 ≠ 0 then
    { image_sent c with s := { (image_sent c).s with conn_state := 5 } }
  else
    { (do_uart_get_data_ptr (image_sent c)).2 with
        s := { (do_uart_get_data_ptr (image_sent c)).2.s with conn_state := 3 } }

/-- The system `c` at the end of state 6 when the `send` did not fail. -/
def empty_done (c : Sys) : Sys :=
  { c with w := { c.w with n_uart := c.w.n_uart + 1, n_send := c.w.n_send + 1 },
           s := { c.s with sensors_buff := c.w.uart_data c.w.n_uart, header := 4,
                           conn_state := 3 },
           tr := c.tr ++ [Event.send c.s.client_sock Buf.header 0 1 [4] (c.w.send_ret c.w.n_send),
                   Event.uart_get_data_ptr] }

/-- Whether the chunks are slices of the image buffer that follow one another
without gap or overlap, none empty, the first starting at `start`, the last ending
at `stop`. -/
def slices_cover (start stop : Nat) : List (Buf × Nat × Nat) → Bool
  | [] => start == stop
  | (src, off, len) :: rest =>
    decide (src = Buf.img ∧ off = start ∧ 0 < len) && slices_cover (start + len) stop rest

/-- Whether an event is a `send` call. -/
def Event.is_send : Event → Bool
  | Event.send _ _ _ _ _ _ => true
  | _ => false

/-- Whether an event is a `close` call. -/
def Event.is_close : Event → Bool
  | Event.close _ => true
  | _ => false

/-- Whether an event is a call of a frame source (`spi_get_data_ptr` or
`uart_get_data_ptr`). -/
def Event.is_frame_source : Event → Bool
  | Event.spi_get_data_ptr => true
  | Event.uart_get_data_ptr => true
  | _ => false

/-- Whether an event is one of the calls an iteration makes on a peer connection:
`accept`, `recv`, `send`, the Actuator Sink or a frame source. -/
def Event.is_session_call : Event → Bool
  | Event.accept _ _ => true
  | Event.recv _ _ _ _ => true
  | Event.send _ _ _ _ _ _ => true
  | Event.uart_set_actuators_state _ => true
  | Event.spi_get_data_ptr => true
  | Event.uart_get_data_ptr => true
  | _ => false

/-- The bytes of a `send` call the transport took: as many of the bytes offered as
the count returned says; none when the call failed, none for any other call. -/
def Event.accepted : Event → List Nat
  | Event.send _ _ _ _ data ret => data.take ret.toNat
  | _ => []

/-- The bytes the transport took over the `send` calls of a trace, in order. -/
def accepted_bytes (tr : List Event) : List Nat :=
  (tr.map Event.accepted).flatten

/-- The count a `send` call returned, as a number of bytes (0 when it failed); 0
for any other call. -/
def Event.accepted_count : Event → Nat
  | Event.send _ _ _ _ _ ret => ret.toNat
  | _ => 0

/-- The sum of the counts the `send` calls of a trace returned. -/
def accepted_count (tr : List Event) : Nat :=
  (tr.map Event.accepted_count).sum

/-- Whether every `close` of a trace is made on the listening socket that is open
at that point.  `lsn` is the open listening socket, if any: a successful `socket`
call opens one, a `close` call must name it and leaves none open. -/
def closes_ok : Option Int → List Event → Bool
  | _, [] => true
  | lsn, Event.socket ret :: es => closes_ok (if 0 ≤ ret then some ret else lsn) es
  | lsn, Event.close fd :: es => (lsn == some fd) && closes_ok none es
  | lsn, _ :: es => closes_ok lsn es

/-- The iterations of `socket_task` when the event group holds `bits.get i` at the
top of iteration `i`: other tasks may change the flags between two iterations. -/
def socket_task_run_flags (UART_RX_BUFF_SIZE : Nat) : List Nat → Sys → Option Sys
  | [], c => some c
  | b :: bs, c =>
    match socket_task_iter UART_RX_BUFF_SIZE { c with w := { c.w with evg_bits := b } } with
    | none => none
    | some c1 => socket_task_run_flags UART_RX_BUFF_SIZE bs c1

/-- Whether `st` is one of the states with a peer connected: RECV_CMD, SEND_IMAGE,
SEND_SENSORS, SEND_EMPTY. -/
def in_session (st : Nat) : Bool :=
  st == 3 || st == 4 || st == 5 || st == 6

/-- The number of `send` calls state `st` makes when none of them fails. -/
def sends_in_state (st : Nat) : Nat :=
  if st = 4 then 11 else if st = 5 then 2 else if st = 6 then 1 else 0

/-- The task as `socket_task` starts it, in the world `w`. -/
def Sys.init (w : World) (buff0 : Nat → Nat) (header0 : Nat) : Sys :=
  { w := w, s := TaskState.init buff0 header0, tr := [] }

/-- The system `c` after `a` turns of the chunk loop without error and a turn whose
`send` fails. -/
def image_loop_failed (c : Sys) (a : Nat) : Sys :=
  { c with w := { c.w with n_send := c.w.n_send + a + 1 },
           s := { c.s with packet_id := c.s.packet_id + a,
                           len := c.w.send_ret (c.w.n_send + a), conn_error := 1 },
           tr := c.tr ++ (image_chunk_events c.s.client_sock c.s.img_buff c.w.send_ret a
                   c.s.packet_id c.w.n_send ++
                 [Event.send c.s.client_sock Buf.img (SPI_PACKET_MAX_SIZE * (c.s.packet_id + a))
                    SPI_PACKET_MAX_SIZE
                    ((c.s.img_buff.drop (SPI_PACKET_MAX_SIZE * (c.s.packet_id + a))).take
                      SPI_PACKET_MAX_SIZE)
                    (c.w.send_ret (c.w.n_send + a)),
                  Event.show_socket_error_reason ErrSite.send_data c.s.client_sock]) }

/-- What an iteration leaves when its `send` number `j` fails: `pre` are the calls
before the failing `send`, `post` those after it. -/
def send_failure_outcome (c c' : Sys) (j : Nat) : Prop :=
  ∃ (pre post : List Event) (src : Buf) (off len : Nat) (data : List Nat),
    c'.tr = c.tr ++ pre ++
      Event.send c.s.client_sock src off len data (c.w.send_ret (c.w.n_send + j)) :: post ∧
    (sends_of pre).length = j ∧
    (∀ e ∈ post, Event.is_send e = false ∧ Event.is_frame_source e = false) ∧
    (∀ e ∈ pre ++ post, Event.is_close e = false) ∧
    c'.s.conn_state = 2 ∧
    c'.s.server_sock = c.s.server_sock ∧
    c'.w.n_send = c.w.n_send + j + 1

/-- The invariant of the task loop: in the states with a peer connected no error is
pending. -/
def session_clean (c : Sys) : Prop :=
  in_session c.s.conn_state = true → c.s.conn_error = 0

/-! ## Concrete systems for the examples -/

/-- A world in which every call succeeds: `socket` returns descriptor 3, `accept`
descriptor 4, every `send` accepts one byte; the image is 38400 bytes of 7, the
sensor frame `U` bytes of 9. -/
def demo_world (U : Nat) (bits : Nat) (recvs : List RecvResult) : World :=
  { evg_bits := bits
    socket_ret := (fun _ => 3)
    bind_ret := (fun _ => 0)
    listen_ret := (fun _ => 0)
    accept_ret := (fun _ => 4)
    send_ret := (fun _ => 1)
    spi_data := (fun _ => List.replicate 38400 7)
    uart_data := (fun _ => List.replicate U 9)
    recv_rets := recvs
    n_socket := 1
    n_bind := 1
    n_listen := 1
    n_accept := 1
    n_send := 0
    n_spi := 0
    n_uart := 0 }

/-- The task in state `st` with a peer connected, in `demo_world`. -/
def demo_sys (U : Nat) (st : Nat) (bits : Nat) (recvs : List RecvResult) : Sys :=
  { w := demo_world U bits recvs
    s := { TaskState.init (fun _ => 0) 0 with
             server_sock := 3, client_sock := 4, conn_state := st }
    tr := [] }

/-- The command of the end-to-end scenario (mode 1), with 5 as last byte. -/
def demo_cmd (mode : Nat) : List Nat := [0, mode, 0, 0, 0, 0, 0, 0, 5]

/-- The command `demo_cmd mode` as the transport may cut it: 2 bytes, nothing, 3
bytes, 4 bytes. -/
def demo_frags (mode : Nat) : List (List Nat) := [[0, mode], [], [0, 0, 0], [0, 0, 0, 5]]

/-- A world whose `socket`, `bind`, `listen` and `accept` calls return `sock`, `bnd`,
`lsn` and `acc`, and whose n-th `send` returns `snd n`; the image is 38400 bytes of
7, the sensor frame 5 bytes of 9. -/
def test_world (sock bnd lsn acc : Int) (snd : Nat → Int) (bits : Nat)
    (recvs : List RecvResult) : World :=
  { evg_bits := bits
    socket_ret := (fun _ => sock)
    bind_ret := (fun _ => bnd)
    listen_ret := (fun _ => lsn)
    accept_ret := (fun _ => acc)
    send_ret := snd
    spi_data := (fun _ => List.replicate 38400 7)
    uart_data := (fun _ => List.replicate 5 9)
    recv_rets := recvs
    n_socket := 0
    n_bind := 0
    n_listen := 0
    n_accept := 0
    n_send := 0
    n_spi := 0
    n_uart := 0 }

/-- The task in state `st` in the world `w`, with 3 in `server_sock` and 4 in
`client_sock`. -/
def test_sys (w : World) (st : Nat) : Sys :=
  { w := w
    s := { TaskState.init (fun _ => 0) 0 with
             server_sock := 3, client_sock := 4, conn_state := st }
    tr := [] }

/-! ## Machine integers in range -/

theorem to_int16_small (v : Int) (h0 : -32768 ≤ v) (h1 : v < 32768) : to_int16 v = v := by
  unfold to_int16
  omega

theorem to_uint8_small (v : Int) (h0 : 0 ≤ v) (h1 : v < 256) : to_uint8 v = v.toNat := by
  unfold to_uint8
  congr 1
  omega

/-! ## The receive loop -/

theorem store_bytes_append (buf : List Nat) (stray : List (Int × Nat)) (off : Int)
    (xs ys : List Nat) :
    store_bytes buf stray off (xs ++ ys) =
      store_bytes (store_bytes buf stray off xs).1 (store_bytes buf stray off xs).2
        (off + xs.length) ys := by
  induction xs generalizing buf stray off with
  | nil => simp [store_bytes]
  | cons x xs ih =>
    simp only [List.cons_append, store_bytes, List.length_cons, List.append_eq]
    split
    · rw [ih]
      congr 1
      push_cast
      ring
    · rw [ih]
      congr 1
      push_cast
      ring

theorem recv_cmd_loop_done (rs : List RecvResult) (c : Sys) (h : c.s.to_recv = 0) :
    recv_cmd_loop rs c = some c := by
  cases rs <;> simp [recv_cmd_loop, h]

theorem recv_upd_self (c : Sys) :
    recv_upd c c.w.recv_rets c.s.to_recv c.s.len (c.s.actuators_buff, c.s.stray) [] = c := by
  simp [recv_upd]

/-- One turn of the receive loop whose `recv` delivers the bytes `f`, no more than
were asked for. -/
theorem recv_cmd_loop_step_data (f : List Nat) (rest : List RecvResult) (c : Sys)
    (hpos : 0 < c.s.to_recv) (hf : f.length ≤ c.s.to_recv) (h9 : c.s.to_recv ≤ 9) :
    recv_cmd_loop (RecvResult.data f :: rest) c =
      recv_cmd_loop rest
        (recv_upd c rest (c.s.to_recv - f.length) (f.length : Int)
          (store_bytes c.s.actuators_buff c.s.stray (9 - (c.s.to_recv : Int)) f)
          [Event.recv c.s.client_sock (9 - (c.s.to_recv : Int)) c.s.to_recv (f.length : Int)]) := by
  have h16 : to_int16 (f.length : Int) = (f.length : Int) := to_int16_small _ (by omega) (by omega)
  have h8 : to_uint8 ((c.s.to_recv : Int) - (f.length : Int)) = c.s.to_recv - f.length := by
    rw [to_uint8_small _ (by omega) (by omega)]
    omega
  rw [recv_cmd_loop]
  simp only [hpos, if_true, RecvResult.ret, RecvResult.stored, h16, gt_iff_lt]
  by_cases hz : f.length = 0
  · have hnil : f = [] := List.length_eq_zero.mp hz
    subst hnil
    simp [recv_upd, store_bytes]
  · have hlt : (0 : Int) < (f.length : Int) := by omega
    simp only [hlt, if_true, h8]
    rfl

/-- The receive loop over a run of `recv` results that deliver bytes, no more in
all than are awaited: the loop goes on from the system `recv_upd` describes. -/
theorem recv_cmd_loop_data (frags : List (List Nat)) :
    ∀ (rs : List RecvResult) (c : Sys),
      c.w.recv_rets = frags.map RecvResult.data ++ rs →
      frags.flatten.length ≤ c.s.to_recv → c.s.to_recv ≤ 9 →
      ∃ (x : List RecvResult) (l : Int) (evs : List Event),
        (∀ e ∈ evs, Event.is_recv e = true) ∧
        (frags.flatten.length < c.s.to_recv → x = rs) ∧
        recv_cmd_loop (frags.map RecvResult.data ++ rs) c =
          recv_cmd_loop x (recv_upd c x (c.s.to_recv - frags.flatten.length) l
            (store_bytes c.s.actuators_buff c.s.stray (9 - (c.s.to_recv : Int)) frags.flatten)
            evs) := by
  induction frags with
  | nil =>
    intro rs c hw _ _
    refine ⟨rs, c.s.len, [], by simp, fun _ => rfl, ?_⟩
    have hw2 : rs = c.w.recv_rets := by simpa using hw.symm
    subst hw2
    simp only [List.flatten_nil, List.length_nil, Nat.sub_zero, store_bytes, List.map_nil,
      List.nil_append, recv_upd_self]
  | cons f fs ih =>
    intro rs c hw hle h9
    simp only [List.flatten_cons, List.length_append] at hle
    by_cases h0 : c.s.to_recv = 0
    · have hj : (f :: fs).flatten = [] := by
        apply List.length_eq_zero.mp
        simp only [List.flatten_cons, List.length_append]
        omega
      refine ⟨c.w.recv_rets, c.s.len, [], by simp, ?_, ?_⟩
      · intro h
        omega
      · rw [hj]
        simp only [List.length_nil, Nat.sub_zero, store_bytes, recv_upd_self]
        rw [recv_cmd_loop_done _ _ h0, recv_cmd_loop_done _ _ h0]
    · have hpos : 0 < c.s.to_recv := Nat.pos_of_ne_zero h0
      simp only [List.map_cons, List.cons_append]
      rw [recv_cmd_loop_step_data f _ c hpos (by omega) h9]
      obtain ⟨x, l, evs, hev, hx, hloop⟩ :=
        ih rs (recv_upd c (fs.map RecvResult.data ++ rs) (c.s.to_recv - f.length) (f.length : Int)
          (store_bytes c.s.actuators_buff c.s.stray (9 - (c.s.to_recv : Int)) f)
          [Event.recv c.s.client_sock (9 - (c.s.to_recv : Int)) c.s.to_recv (f.length : Int)])
          rfl (by simp only [recv_upd]; omega) (by simp only [recv_upd]; omega)
      refine ⟨x, l, Event.recv c.s.client_sock (9 - (c.s.to_recv : Int)) c.s.to_recv
        (f.length : Int) :: evs, ?_, ?_, ?_⟩
      · intro e he
        rcases List.mem_cons.mp he with rfl | he
        · rfl
        · exact hev e he
      · intro h
        apply hx
        simp only [recv_upd, List.flatten_cons, List.length_append] at h ⊢
        omega
      · rw [hloop]
        congr 1
        simp only [recv_upd, List.flatten_cons, List.length_append, store_bytes_append,
          List.append_assoc, List.singleton_append]
        have e1 : (9 : Int) - ((c.s.to_recv - f.length : Nat) : Int)
            = 9 - (c.s.to_recv : Int) + (f.length : Int) := by omega
        have e2 : c.s.to_recv - f.length - fs.flatten.length
            = c.s.to_recv - (f.length + fs.flatten.length) := by omega
        rw [e1, e2]

/-! ## Traces of `recv` calls -/

theorem sends_of_recvs (evs : List Event) (h : ∀ e ∈ evs, Event.is_recv e = true) :
    sends_of evs = [] := by
  induction evs with
  | nil => rfl
  | cons e es ih =>
    have he := h e (List.mem_cons_self _ _)
    have hes := ih (fun x hx => h x (List.mem_cons_of_mem _ hx))
    cases e <;> first
      | exact Bool.noConfusion he
      | exact hes

theorem sent_bytes_recvs (evs : List Event) (h : ∀ e ∈ evs, Event.is_recv e = true) :
    sent_bytes evs = [] := by
  induction evs with
  | nil => rfl
  | cons e es ih =>
    have he := h e (List.mem_cons_self _ _)
    have hes := ih (fun x hx => h x (List.mem_cons_of_mem _ hx))
    cases e <;> first
      | exact Bool.noConfusion he
      | exact hes

theorem count_recvs (evs : List Event) (h : ∀ e ∈ evs, Event.is_recv e = true) (a : Event)
    (ha : Event.is_recv a = false) : evs.count a = 0 := by
  apply List.count_eq_zero.mpr
  intro hmem
  rw [h a hmem] at ha
  exact Bool.noConfusion ha

/-! ## One iteration -/

theorem check_disconnected_clear (c : Sys) (h : c.w.evg_bits &&& DISCONNECTED_BIT = 0) :
    check_disconnected c = c := by
  simp [check_disconnected, h]

/-- Storing a 9-byte command through `&actuators_buff[0]`: the array of 8 takes
the first 8 bytes, the ninth goes to offset 8, outside the array. -/
theorem store_bytes_cmd (buf : List Nat) (stray : List (Int × Nat)) (cmd : List Nat)
    (hb : buf.length = ACTUATORS_BUFF_LEN) (hc : cmd.length = 9) :
    store_bytes buf stray 0 cmd = (cmd.take 8, stray ++ [((8 : Int), cmd.getD 8 0)]) := by
  obtain ⟨a0, a1, a2, a3, a4, a5, a6, a7, rfl⟩ : ∃ a0 a1 a2 a3 a4 a5 a6 a7,
      buf = [a0, a1, a2, a3, a4, a5, a6, a7] := by
    rcases buf with _ | ⟨a0, _ | ⟨a1, _ | ⟨a2, _ | ⟨a3, _ | ⟨a4, _ | ⟨a5, _ | ⟨a6, _ | ⟨a7, _ | ⟨a8, t⟩⟩⟩⟩⟩⟩⟩⟩⟩ <;>
      simp [ACTUATORS_BUFF_LEN] at hb
    exact ⟨a0, a1, a2, a3, a4, a5, a6, a7, rfl⟩
  obtain ⟨b0, b1, b2, b3, b4, b5, b6, b7, b8, rfl⟩ : ∃ b0 b1 b2 b3 b4 b5 b6 b7 b8,
      cmd = [b0, b1, b2, b3, b4, b5, b6, b7, b8] := by
    rcases cmd with _ | ⟨b0, _ | ⟨b1, _ | ⟨b2, _ | ⟨b3, _ | ⟨b4, _ | ⟨b5, _ | ⟨b6, _ | ⟨b7, _ | ⟨b8, _ | ⟨b9, t⟩⟩⟩⟩⟩⟩⟩⟩⟩⟩ <;>
      simp at hc
    exact ⟨b0, b1, b2, b3, b4, b5, b6, b7, b8, rfl⟩
  simp [store_bytes]

/-- State 3 when the whole command arrives: for every way the transport cuts
the 9 bytes into `recv` results, the iteration ends in `cmd_received`. -/
theorem case_recv_cmd_received (c : Sys) (frags : List (List Nat)) (rest : List RecvResult)
    (herr : c.s.conn_error = 0)
    (hw : c.w.recv_rets = frags.map RecvResult.data ++ rest)
    (hlen : frags.flatten.length = 9) :
    ∃ (x : List RecvResult) (l : Int) (evs : List Event),
      (∀ e ∈ evs, Event.is_recv e = true) ∧
      case_recv_cmd c = some (cmd_received c x l
        (store_bytes c.s.actuators_buff c.s.stray 0 frags.flatten) evs) := by
  obtain ⟨x, l, evs, hev, _, hloop⟩ :=
    recv_cmd_loop_data frags rest { c with s := { c.s with to_recv := 9 } } hw
      (by simp [hlen]) (by simp)
  refine ⟨x, l, evs, hev, ?_⟩
  rw [case_recv_cmd, hw, hloop, recv_cmd_loop_done _ _ (by simp [recv_upd, hlen])]
  simp only [recv_upd, herr, if_true, emit, mode_byte, cmd_received, cmd_next_state,
    hlen, Nat.sub_self, Nat.cast_ofNat, sub_self]
  split_ifs <;> simp

theorem iter_recv_cmd_received (U : Nat) (c : Sys) (frags : List (List Nat))
    (rest : List RecvResult)
    (hst : c.s.conn_state = 3) (hbits : c.w.evg_bits &&& DISCONNECTED_BIT = 0)
    (herr : c.s.conn_error = 0)
    (hw : c.w.recv_rets = frags.map RecvResult.data ++ rest)
    (hlen : frags.flatten.length = 9) :
    ∃ (x : List RecvResult) (l : Int) (evs : List Event),
      (∀ e ∈ evs, Event.is_recv e = true) ∧
      socket_task_iter U c = some (emit (Event.vTaskDelay 10) (cmd_received c x l
        (store_bytes c.s.actuators_buff c.s.stray 0 frags.flatten) evs)) := by
  obtain ⟨x, l, evs, hev, hcase⟩ := case_recv_cmd_received c frags rest herr hw hlen
  refine ⟨x, l, evs, hev, ?_⟩
  simp [socket_task_iter, check_disconnected_clear c hbits, dispatch, hst, hcase]

/-! ## The send states (4, 5, 6) -/

theorem to_uint32_small (v : Int) (h0 : 0 ≤ v) (h1 : v < 4294967296) : to_uint32 v = v.toNat := by
  unfold to_uint32
  congr 1
  omega

theorem sent_bytes_append (a b : List Event) :
    sent_bytes (a ++ b) = sent_bytes a ++ sent_bytes b := by
  simp [sent_bytes]

theorem sends_of_append (a b : List Event) : sends_of (a ++ b) = sends_of a ++ sends_of b := by
  simp [sends_of]

/-- The chunk loop of state 4 when none of its `send` calls fails. -/
theorem send_image_loop_ok (n : Nat) :
    ∀ (c : Sys), (∀ k, k < n → 0 ≤ c.w.send_ret (c.w.n_send + k) ∧
        c.w.send_ret (c.w.n_send + k) ≤ 4092) →
      c.s.packet_id + n ≤ 1000 →
      ∃ l : Int, send_image_loop n c = image_loop_upd c n l := by
  induction n with
  | zero =>
    intro c _ _
    exact ⟨c.s.len, by simp [send_image_loop, image_loop_upd, image_chunk_events]⟩
  | succ n ih =>
    intro c hs hp
    have h0 := hs 0 (Nat.succ_pos n)
    simp only [Nat.add_zero] at h0
    have h16 : to_int16 (c.w.send_ret c.w.n_send) = c.w.send_ret c.w.n_send :=
      to_int16_small _ (by omega) (by omega)
    have hneg : ¬ (c.w.send_ret c.w.n_send < 0) := not_lt.mpr h0.1
    have h32a : to_uint32 ((SPI_PACKET_MAX_SIZE : Int) * (c.s.packet_id : Int))
        = SPI_PACKET_MAX_SIZE * c.s.packet_id := by
      simp only [SPI_PACKET_MAX_SIZE]
      rw [to_uint32_small _ (by omega) (by omega)]
      omega
    have h32b : to_uint32 ((c.s.packet_id : Int) + 1) = c.s.packet_id + 1 := by
      rw [to_uint32_small _ (by omega) (by omega)]
      omega
    obtain ⟨l, hl⟩ := ih (image_loop_upd c 1 (c.w.send_ret c.w.n_send))
      (by
        intro k hk
        have hk1 := hs (k + 1) (by omega)
        simp only [image_loop_upd]
        rw [Nat.add_assoc, Nat.add_comm 1 k]
        exact hk1)
      (by simp only [image_loop_upd]; omega)
    refine ⟨l, ?_⟩
    rw [send_image_loop]
    simp only [do_send, h16, hneg, if_false, send_data, h32a, h32b]
    show send_image_loop n (image_loop_upd c 1 (c.w.send_ret c.w.n_send)) = _
    rw [hl]
    simp only [image_loop_upd, image_chunk_events, List.append_assoc, List.singleton_append,
      Nat.add_assoc, Nat.add_comm 1 n]

theorem case_send_image_begun (c : Sys) (h : 0 ≤ c.w.send_ret c.w.n_send) :
    case_send_image c =
      send_image_finish (send_image_remainder (send_image_loop 9 (image_begun c))) := by
  have hneg : ¬ (c.w.send_ret c.w.n_send < 0) := not_lt.mpr h
  have hnp : to_uint16 ((MAX_BUFF_SIZE : Int) / (SPI_PACKET_MAX_SIZE : Int)) = 9 := by decide
  have hrb : to_uint32 ((MAX_BUFF_SIZE : Int) % (SPI_PACKET_MAX_SIZE : Int)) = 1572 := by decide
  unfold case_send_image
  simp only [send_image_prepare, emit, do_spi_get_data_ptr, do_send, hneg, if_false, hnp, hrb,
    Nat.sub_zero, send_data, List.drop_zero, List.take_succ_cons, List.take_zero,
    List.append_assoc, List.singleton_append]
  rfl

/-- State 4 when none of its 11 `send` calls fails and no error is pending. -/
theorem case_send_image_ok (c : Sys) (herr : c.s.conn_error = 0)
    (hs : ∀ k, k < 11 → 0 ≤ c.w.send_ret (c.w.n_send + k) ∧
      c.w.send_ret (c.w.n_send + k) ≤ 4092) :
    case_send_image c = image_done c := by
  have h0 := hs 0 (by omega)
  have h10 := hs 10 (by omega)
  simp only [Nat.add_zero] at h0
  have h16 : to_int16 (c.w.send_ret (c.w.n_send + 10)) = c.w.send_ret (c.w.n_send + 10) :=
    to_int16_small _ (by omega) (by omega)
  have hneg10 : ¬ (c.w.send_ret (c.w.n_send + 10) < 0) := not_lt.mpr h10.1
  obtain ⟨l, hl⟩ := send_image_loop_ok 9 (image_begun c)
    (by
      intro k hk
      have hk1 := hs (k + 1) (by omega)
      simp only [image_begun]
      rw [Nat.add_assoc, Nat.add_comm 1 k]
      exact hk1)
    (by simp [image_begun])
  have h32 : to_uint32 ((SPI_PACKET_MAX_SIZE : Int) * ((0 + 9 : Nat) : Int)) = 36828 := by decide
  rw [case_send_image_begun c h0.1, hl]
  simp only [send_image_remainder, image_loop_upd, image_begun, herr, do_send, gt_iff_lt,
    Nat.lt_add_one, Nat.ofNat_pos, and_self, if_true, h32, Nat.add_assoc, Nat.reduceAdd, h16,
    hneg10, if_false]
  simp only [send_image_finish, emit, image_done, image_sent, image_events, do_uart_get_data_ptr,
    mode_byte, send_data, if_true, List.append_assoc, List.cons_append, List.nil_append]
  split_ifs <;> simp only [herr]

/-- State 6 when its `send` call does not fail. -/
theorem case_send_empty_ok (c : Sys) (h0 : 0 ≤ c.w.send_ret c.w.n_send) :
    case_send_empty c = empty_done c := by
  have hn0 : ¬ (c.w.send_ret c.w.n_send < 0) := not_lt.mpr h0
  simp only [case_send_empty, do_uart_get_data_ptr, do_send, hn0, if_false,
    empty_done, send_data, List.append_assoc, List.cons_append,
    List.nil_append, List.drop_zero, List.take_succ_cons, List.take_zero]

theorem iter_send_image (U : Nat) (c : Sys) (hst : c.s.conn_state = 4)
    (hbits : c.w.evg_bits &&& DISCONNECTED_BIT = 0) :
    socket_task_iter U c = some (emit (Event.vTaskDelay 10) (case_send_image c)) := by
  simp [socket_task_iter, check_disconnected_clear c hbits, dispatch, hst]

theorem iter_send_sensors (U : Nat) (c : Sys) (hst : c.s.conn_state = 5)
    (hbits : c.w.evg_bits &&& DISCONNECTED_BIT = 0) :
    socket_task_iter U c = some (emit (Event.vTaskDelay 10) (case_send_sensors U c)) := by
  simp [socket_task_iter, check_disconnected_clear c hbits, dispatch, hst]

theorem iter_send_empty (U : Nat) (c : Sys) (hst : c.s.conn_state = 6)
    (hbits : c.w.evg_bits &&& DISCONNECTED_BIT = 0) :
    socket_task_iter U c = some (emit (Event.vTaskDelay 10) (case_send_empty c)) := by
  simp [socket_task_iter, check_disconnected_clear c hbits, dispatch, hst]

/-- The bytes of `n` consecutive full chunks, the first being chunk `p`. -/
theorem sent_bytes_image_chunks (fd : Int) (img : List Nat) (ret : Nat → Int) (n : Nat) :
    ∀ (p j : Nat), sent_bytes (image_chunk_events fd img ret n p j) =
      (img.drop (SPI_PACKET_MAX_SIZE * p)).take (SPI_PACKET_MAX_SIZE * n) := by
  induction n with
  | zero =>
    intro p j
    simp [image_chunk_events, sent_bytes]
  | succ n ih =>
    intro p j
    have hcons : sent_bytes (image_chunk_events fd img ret (n + 1) p j) =
        (img.drop (SPI_PACKET_MAX_SIZE * p)).take SPI_PACKET_MAX_SIZE ++
          sent_bytes (image_chunk_events fd img ret n (p + 1) (j + 1)) := rfl
    have e : SPI_PACKET_MAX_SIZE * (n + 1) = SPI_PACKET_MAX_SIZE + SPI_PACKET_MAX_SIZE * n := by
      ring
    have e2 : SPI_PACKET_MAX_SIZE * (p + 1) = SPI_PACKET_MAX_SIZE * p + SPI_PACKET_MAX_SIZE := by
      ring
    rw [hcons, ih, e, e2, List.take_add, List.drop_drop]

/-- The bytes state 4 sends when no `send` fails: the tag 0x01, then the first
`MAX_BUFF_SIZE` bytes of the image buffer. -/
theorem sent_bytes_image_events (fd : Int) (img : List Nat) (ret : Nat → Int) (j : Nat) :
    sent_bytes (image_events fd img ret j) = 1 :: img.take MAX_BUFF_SIZE := by
  have h1 : sent_bytes (image_events fd img ret j) =
      1 :: (sent_bytes (image_chunk_events fd img ret 9 0 (j + 1)) ++
        (img.drop 36828).take 1572) := by
    simp [image_events, sent_bytes_append, sent_bytes, Event.payload]
  rw [h1, sent_bytes_image_chunks]
  have h2 : MAX_BUFF_SIZE = SPI_PACKET_MAX_SIZE * 9 + 1572 := by decide
  rw [h2, List.take_add]
  simp [SPI_PACKET_MAX_SIZE]

/-- The `send` calls of state 4 when no `send` fails. -/
theorem sends_of_image_events (fd : Int) (img : List Nat) (ret : Nat → Int) (j : Nat) :
    sends_of (image_events fd img ret j) =
      (Buf.header, 0, 1) ::
        ((List.range 9).map (fun k => (Buf.img, SPI_PACKET_MAX_SIZE * k, SPI_PACKET_MAX_SIZE))
          ++ [(Buf.img, 36828, 1572)]) := by
  rfl

/-! ## Bits of the mode byte -/

theorem and_one_ne_zero_iff (m : Nat) : m &&& 1 ≠ 0 ↔ m.testBit 0 = true := by
  simp [Nat.and_one_is_mod, Nat.testBit_zero]

theorem and_two_ne_zero_iff (m : Nat) : m &&& 2 ≠ 0 ↔ m.testBit 1 = true := by
  constructor
  · intro h
    obtain ⟨i, hi⟩ := Nat.ne_zero_implies_bit_true h
    rw [Nat.testBit_and] at hi
    have h2 : (2 : Nat) = 2 ^ 1 := rfl
    rw [h2, Nat.testBit_two_pow] at hi
    simp at hi
    rw [hi.2]
    exact hi.1
  · intro h hz
    have hb : (m &&& 2).testBit 1 = true := by
      rw [Nat.testBit_and, h]
      rfl
    rw [hz] at hb
    simp at hb

theorem getD_one_take_eight (cmd : List Nat) : (cmd.take 8).getD 1 0 = cmd.getD 1 0 := by
  simp [List.getD_eq_getElem?_getD, List.getElem?_take]

/-! ## Reception of a command (state 3) -/

/-- C1, as the code behaves.  For every way the transport cuts a 9-byte command
into `recv` results, the iteration of state 3 ends, and the array it hands to the
Actuator Sink holds the first 8 bytes of the command in arrival order, not the 9:
the array `actuators_buff` has 8 elements, so what the Sink is given differs from
the command received. -/
theorem recv_cmd_hands_over_eight_bytes (U : Nat) (c : Sys) (frags : List (List Nat))
    (cmd : List Nat) (rest : List RecvResult)
    (hst : c.s.conn_state = 3) (hbits : c.w.evg_bits &&& DISCONNECTED_BIT = 0)
    (herr : c.s.conn_error = 0)
    (hbuf : c.s.actuators_buff.length = ACTUATORS_BUFF_LEN)
    (hw : c.w.recv_rets = frags.map RecvResult.data ++ rest)
    (hcmd : frags.flatten = cmd) (hlen : cmd.length = 9) :
    ∃ (c' : Sys) (evs : List Event),
      socket_task_iter U c = some c' ∧
      (∀ e ∈ evs, Event.is_recv e = true) ∧
      c'.tr = c.tr ++ evs ++
        [Event.uart_set_actuators_state (cmd.take 8), Event.vTaskDelay 10] ∧
      c'.s.actuators_buff = cmd.take 8 ∧
      cmd.take 8 ≠ cmd := by
  subst hcmd
  obtain ⟨x, l, evs, hev, hiter⟩ := iter_recv_cmd_received U c frags rest hst hbits herr hw hlen
  rw [store_bytes_cmd _ _ _ hbuf hlen] at hiter
  refine ⟨_, evs, hiter, hev, ?_, ?_, ?_⟩
  · simp [emit, cmd_received]
  · simp [emit, cmd_received]
  · intro h
    have h2 := congrArg List.length h
    simp [hlen] at h2

/-- Witness of `recv_cmd_hands_over_eight_bytes`: the command `demo_cmd 1` cut in
four `recv` results. -/
theorem recv_cmd_hands_over_eight_bytes_witness :
    ∃ (c' : Sys) (evs : List Event),
      socket_task_iter 5 (demo_sys 5 3 1 ((demo_frags 1).map RecvResult.data)) = some c' ∧
      (∀ e ∈ evs, Event.is_recv e = true) ∧
      c'.tr = (demo_sys 5 3 1 ((demo_frags 1).map RecvResult.data)).tr ++ evs ++
        [Event.uart_set_actuators_state ((demo_cmd 1).take 8), Event.vTaskDelay 10] ∧
      c'.s.actuators_buff = (demo_cmd 1).take 8 ∧
      (demo_cmd 1).take 8 ≠ demo_cmd 1 :=
  recv_cmd_hands_over_eight_bytes 5 (demo_sys 5 3 1 ((demo_frags 1).map RecvResult.data))
    (demo_frags 1) (demo_cmd 1) [] rfl (by decide) rfl rfl rfl rfl rfl

/-- C2, as the code behaves.  For every successful reception of a command the
receive loop stores the ninth byte at offset 8, and 8 is not an index of the array
`actuators_buff` it writes into: the byte lands outside the array. -/
theorem recv_cmd_stores_outside_array (U : Nat) (c : Sys) (frags : List (List Nat))
    (cmd : List Nat) (rest : List RecvResult)
    (hst : c.s.conn_state = 3) (hbits : c.w.evg_bits &&& DISCONNECTED_BIT = 0)
    (herr : c.s.conn_error = 0)
    (hbuf : c.s.actuators_buff.length = ACTUATORS_BUFF_LEN)
    (hw : c.w.recv_rets = frags.map RecvResult.data ++ rest)
    (hcmd : frags.flatten = cmd) (hlen : cmd.length = 9) :
    ∃ (c' : Sys),
      socket_task_iter U c = some c' ∧
      c'.s.stray = c.s.stray ++ [((8 : Int), cmd.getD 8 0)] ∧
      ¬ ((8 : Int) < (c.s.actuators_buff.length : Int)) ∧
      c'.s.actuators_buff.length = ACTUATORS_BUFF_LEN := by
  subst hcmd
  obtain ⟨x, l, evs, hev, hiter⟩ := iter_recv_cmd_received U c frags rest hst hbits herr hw hlen
  rw [store_bytes_cmd _ _ _ hbuf hlen] at hiter
  refine ⟨_, hiter, ?_, ?_, ?_⟩
  · simp [emit, cmd_received]
  · simp [hbuf, ACTUATORS_BUFF_LEN]
  · simp [emit, cmd_received, hlen, ACTUATORS_BUFF_LEN]

/-- Witness of `recv_cmd_stores_outside_array`: the whole command `demo_cmd 0`
delivered by one `recv`. -/
theorem recv_cmd_stores_outside_array_witness :
    ∃ (c' : Sys),
      socket_task_iter 5 (demo_sys 5 3 1 [RecvResult.data (demo_cmd 0)]) = some c' ∧
      c'.s.stray = (demo_sys 5 3 1 [RecvResult.data (demo_cmd 0)]).s.stray ++
        [((8 : Int), (demo_cmd 0).getD 8 0)] ∧
      ¬ ((8 : Int) < ((demo_sys 5 3 1 [RecvResult.data (demo_cmd 0)]).s.actuators_buff.length : Int)) ∧
      c'.s.actuators_buff.length = ACTUATORS_BUFF_LEN :=
  recv_cmd_stores_outside_array 5 (demo_sys 5 3 1 [RecvResult.data (demo_cmd 0)])
    [demo_cmd 0] (demo_cmd 0) [] rfl (by decide) rfl rfl rfl rfl rfl

/-- C3.  For every successfully received command the state after RECV_CMD is
decided by the mode byte, the second byte received: SEND_EMPTY (6) if it is 0;
otherwise SEND_IMAGE (4) if bit 0 is set, whatever bit 1 is; otherwise
SEND_SENSORS (5) if bit 1 is set. -/
theorem recv_cmd_next_state (U : Nat) (c : Sys) (frags : List (List Nat))
    (cmd : List Nat) (rest : List RecvResult)
    (hst : c.s.conn_state = 3) (hbits : c.w.evg_bits &&& DISCONNECTED_BIT = 0)
    (herr : c.s.conn_error = 0)
    (hbuf : c.s.actuators_buff.length = ACTUATORS_BUFF_LEN)
    (hw : c.w.recv_rets = frags.map RecvResult.data ++ rest)
    (hcmd : frags.flatten = cmd) (hlen : cmd.length = 9) :
    ∃ (c' : Sys),
      socket_task_iter U c = some c' ∧
      (cmd.getD 1 0 = 0 → c'.s.conn_state = 6) ∧
      (cmd.getD 1 0 ≠ 0 → (cmd.getD 1 0).testBit 0 = true → c'.s.conn_state = 4) ∧
      (cmd.getD 1 0 ≠ 0 → (cmd.getD 1 0).testBit 0 = false → (cmd.getD 1 0).testBit 1 = true →
        c'.s.conn_state = 5) := by
  subst hcmd
  obtain ⟨x, l, evs, hev, hiter⟩ := iter_recv_cmd_received U c frags rest hst hbits herr hw hlen
  rw [store_bytes_cmd _ _ _ hbuf hlen] at hiter
  refine ⟨_, hiter, ?_, ?_, ?_⟩
  · intro h0
    simp only [emit, cmd_received, cmd_next_state, getD_one_take_eight, h0, if_true]
  · intro h0 h1
    have hb := (and_one_ne_zero_iff _).mpr h1
    simp only [emit, cmd_received, cmd_next_state, getD_one_take_eight, h0, if_false, hb,
      ne_eq, not_false_eq_true, if_true]
  · intro h0 h1 h2
    have hb1 : ¬ (frags.flatten.getD 1 0 &&& 1 ≠ 0) := by
      rw [and_one_ne_zero_iff, h1]
      simp
    have hb2 := (and_two_ne_zero_iff _).mpr h2
    simp only [emit, cmd_received, cmd_next_state, getD_one_take_eight, h0, if_false, hb1, hb2,
      ne_eq, not_false_eq_true, if_true]

/-- Witness of `recv_cmd_next_state`: the command `demo_cmd 3` (bits 0 and 1 set)
cut in four `recv` results. -/
theorem recv_cmd_next_state_witness :
    ∃ (c' : Sys),
      socket_task_iter 5 (demo_sys 5 3 1 ((demo_frags 3).map RecvResult.data)) = some c' ∧
      ((demo_cmd 3).getD 1 0 = 0 → c'.s.conn_state = 6) ∧
      ((demo_cmd 3).getD 1 0 ≠ 0 → ((demo_cmd 3).getD 1 0).testBit 0 = true →
        c'.s.conn_state = 4) ∧
      ((demo_cmd 3).getD 1 0 ≠ 0 → ((demo_cmd 3).getD 1 0).testBit 0 = false →
        ((demo_cmd 3).getD 1 0).testBit 1 = true → c'.s.conn_state = 5) :=
  recv_cmd_next_state 5 (demo_sys 5 3 1 ((demo_frags 3).map RecvResult.data))
    (demo_frags 3) (demo_cmd 3) [] rfl (by decide) rfl rfl rfl rfl rfl

/-! ## The next state after a command -/

theorem cmd_next_state_none (m cur : Nat) (hz : m ≠ 0) (h0 : m.testBit 0 = false)
    (h1 : m.testBit 1 = false) : cmd_next_state m cur = cur := by
  have hb0 : ¬ (m &&& 1 ≠ 0) := by
    rw [and_one_ne_zero_iff, h0]
    simp
  have hb1 : ¬ (m &&& 2 ≠ 0) := by
    rw [and_two_ne_zero_iff, h1]
    simp
  simp only [cmd_next_state, hz, if_false, hb0, hb1]

/-- What an iteration of state 3 that receives the whole command `cmd` leaves. -/
theorem iter_recv_cmd_summary (U : Nat) (c : Sys) (frags : List (List Nat))
    (cmd : List Nat) (rest : List RecvResult)
    (hst : c.s.conn_state = 3) (hbits : c.w.evg_bits &&& DISCONNECTED_BIT = 0)
    (herr : c.s.conn_error = 0)
    (hbuf : c.s.actuators_buff.length = ACTUATORS_BUFF_LEN)
    (hw : c.w.recv_rets = frags.map RecvResult.data ++ rest)
    (hcmd : frags.flatten = cmd) (hlen : cmd.length = 9) :
    ∃ (c1 : Sys) (evs : List Event) (x : List RecvResult),
      socket_task_iter U c = some c1 ∧
      (∀ e ∈ evs, Event.is_recv e = true) ∧
      c1.tr = c.tr ++ (evs ++ [Event.uart_set_actuators_state (cmd.take 8),
        Event.vTaskDelay 10]) ∧
      c1.s.conn_state = cmd_next_state (cmd.getD 1 0) 3 ∧
      mode_byte c1.s = cmd.getD 1 0 ∧
      c1.s.conn_error = 0 ∧
      c1.s.client_sock = c.s.client_sock ∧
      c1.w = { c.w with recv_rets := x } := by
  subst hcmd
  obtain ⟨x, l, evs, hev, hiter⟩ := iter_recv_cmd_received U c frags rest hst hbits herr hw hlen
  rw [store_bytes_cmd _ _ _ hbuf hlen] at hiter
  refine ⟨_, evs, x, hiter, hev, ?_, ?_, ?_, herr, rfl, rfl⟩
  · simp only [emit, cmd_received, List.append_assoc, List.cons_append, List.nil_append]
  · simp only [emit, cmd_received, getD_one_take_eight, hst]
  · simp only [emit, cmd_received, mode_byte, getD_one_take_eight]

/-- One turn of the receive loop whose `recv` fails: the loop stops. -/
theorem recv_cmd_loop_step_error (rest : List RecvResult) (c : Sys) (hpos : 0 < c.s.to_recv) :
    recv_cmd_loop (RecvResult.error :: rest) c =
      some (emit (Event.show_socket_error_reason ErrSite.recv_cmd c.s.client_sock)
        { c with w := { c.w with recv_rets := rest },
                 s := { c.s with len := -1, conn_error := 1 },
                 tr := c.tr ++ [Event.recv c.s.client_sock (9 - (c.s.to_recv : Int)) c.s.to_recv
                         (-1)] }) := by
  have h16 : to_int16 (-1) = -1 := by decide
  rw [recv_cmd_loop]
  simp only [hpos, if_true, RecvResult.ret, RecvResult.stored, h16, store_bytes, gt_iff_lt]
  rfl

/-! ## The replies -/

/-- C4, counterexample.  A command with mode 0x04 (neither bit 0 nor bit 1 set,
not zero) is received whole: the next state is RECV_CMD (3), not SEND_EMPTY (6),
and nothing is sent. -/
theorem mode_four_not_send_empty :
    (demo_cmd 4).getD 1 0 = 4 ∧ (4 : Nat).testBit 0 = false ∧ (4 : Nat).testBit 1 = false ∧
    (socket_task_iter 5 (demo_sys 5 3 1 [RecvResult.data (demo_cmd 4)])).map
        (fun c => (c.s.conn_state, sends_of c.tr)) = some (3, []) ∧
    (socket_task_iter 5 (demo_sys 5 3 1 [RecvResult.data (demo_cmd 4)])).map
        (fun c => c.s.conn_state) ≠ some 6 := by
  decide

/-- C4, amended.  Only mode 0 selects the empty branch: a successfully received
command with mode 0 takes the machine to SEND_EMPTY (6), whose reply, when the
send succeeds, is the single tag byte 0x04; a command whose mode is not 0 and has
neither bit 0 nor bit 1 set selects no branch: the machine stays in RECV_CMD (3)
and nothing is sent in that iteration. -/
theorem empty_branch_only_for_mode_zero (U : Nat) (c : Sys) (frags : List (List Nat))
    (cmd : List Nat) (rest : List RecvResult)
    (hst : c.s.conn_state = 3) (hbits : c.w.evg_bits &&& DISCONNECTED_BIT = 0)
    (herr : c.s.conn_error = 0)
    (hbuf : c.s.actuators_buff.length = ACTUATORS_BUFF_LEN)
    (hw : c.w.recv_rets = frags.map RecvResult.data ++ rest)
    (hcmd : frags.flatten = cmd) (hlen : cmd.length = 9)
    (hsend : 0 ≤ c.w.send_ret c.w.n_send) :
    (cmd.getD 1 0 = 0 →
      ∃ (c1 c2 : Sys) (evs : List Event),
        socket_task_iter U c = some c1 ∧ c1.s.conn_state = 6 ∧
        socket_task_iter U c1 = some c2 ∧ c2.tr = c1.tr ++ evs ∧ sent_bytes evs = [4]) ∧
    (cmd.getD 1 0 ≠ 0 → (cmd.getD 1 0).testBit 0 = false → (cmd.getD 1 0).testBit 1 = false →
      ∃ (c1 : Sys) (evs : List Event),
        socket_task_iter U c = some c1 ∧ c1.s.conn_state = 3 ∧
        c1.tr = c.tr ++ evs ∧ sends_of evs = []) := by
  obtain ⟨c1, evs, x, hiter, hev, h1tr, h1st, h1mode, h1err, h1fd, h1w⟩ :=
    iter_recv_cmd_summary U c frags cmd rest hst hbits herr hbuf hw hcmd hlen
  constructor
  · intro hmode
    have h6 : c1.s.conn_state = 6 := by
      rw [h1st, hmode]
      rfl
    have h1bits : c1.w.evg_bits &&& DISCONNECTED_BIT = 0 := by
      rw [h1w]
      exact hbits
    have h2 : socket_task_iter U c1 = some (emit (Event.vTaskDelay 10) (empty_done c1)) := by
      rw [iter_send_empty U c1 h6 h1bits, case_send_empty_ok c1 (by rw [h1w]; exact hsend)]
    refine ⟨c1, emit (Event.vTaskDelay 10) (empty_done c1),
      [Event.send c1.s.client_sock Buf.header 0 1 [4] (c1.w.send_ret c1.w.n_send),
        Event.uart_get_data_ptr, Event.vTaskDelay 10], hiter, h6, h2, ?_, rfl⟩
    simp only [emit, empty_done, List.append_assoc, List.cons_append, List.nil_append]
  · intro hz hb0 hb1
    refine ⟨c1, evs ++ [Event.uart_set_actuators_state (cmd.take 8), Event.vTaskDelay 10],
      hiter, ?_, h1tr, ?_⟩
    · rw [h1st, cmd_next_state_none _ _ hz hb0 hb1]
    · rw [sends_of_append, sends_of_recvs evs hev]
      rfl

/-- Witness of `empty_branch_only_for_mode_zero`: the command `demo_cmd 0` cut in
four `recv` results. -/
theorem empty_branch_only_for_mode_zero_witness :
    ((demo_cmd 0).getD 1 0 = 0 →
      ∃ (c1 c2 : Sys) (evs : List Event),
        socket_task_iter 5 (demo_sys 5 3 1 ((demo_frags 0).map RecvResult.data)) = some c1 ∧
        c1.s.conn_state = 6 ∧
        socket_task_iter 5 c1 = some c2 ∧ c2.tr = c1.tr ++ evs ∧ sent_bytes evs = [4]) ∧
    ((demo_cmd 0).getD 1 0 ≠ 0 → ((demo_cmd 0).getD 1 0).testBit 0 = false →
      ((demo_cmd 0).getD 1 0).testBit 1 = false →
      ∃ (c1 : Sys) (evs : List Event),
        socket_task_iter 5 (demo_sys 5 3 1 ((demo_frags 0).map RecvResult.data)) = some c1 ∧
        c1.s.conn_state = 3 ∧
        c1.tr = (demo_sys 5 3 1 ((demo_frags 0).map RecvResult.data)).tr ++ evs ∧
        sends_of evs = []) :=
  empty_branch_only_for_mode_zero 5 (demo_sys 5 3 1 ((demo_frags 0).map RecvResult.data))
    (demo_frags 0) (demo_cmd 0) [] rfl (by decide) rfl rfl rfl rfl rfl (by decide)

/-- What an iteration of state 4 leaves when no `send` fails. -/
theorem iter_send_image_summary (U : Nat) (c : Sys)
    (hst : c.s.conn_state = 4) (hbits : c.w.evg_bits &&& DISCONNECTED_BIT = 0)
    (herr : c.s.conn_error = 0)
    (hs : ∀ k, k < 11 → 0 ≤ c.w.send_ret (c.w.n_send + k) ∧
      c.w.send_ret (c.w.n_send + k) ≤ 4092) :
    ∃ (c' : Sys) (tl : List Event),
      socket_task_iter U c = some c' ∧
      c'.tr = c.tr ++ (image_events c.s.client_sock (c.w.spi_data c.w.n_spi) c.w.send_ret
        c.w.n_send ++ tl) ∧
      sends_of tl = [] ∧ sent_bytes tl = [] := by
  have h2 : socket_task_iter U c = some (emit (Event.vTaskDelay 10) (image_done c)) := by
    rw [iter_send_image U c hst hbits, case_send_image_ok c herr hs]
  by_cases hb : mode_byte c.s &&& 2 ≠ 0
  · refine ⟨_, [Event.vTaskDelay 10], h2, ?_, rfl, rfl⟩
    simp only [emit, image_done, hb, ne_eq, not_false_eq_true, if_true, image_sent,
      List.append_assoc]
  · refine ⟨_, [Event.uart_get_data_ptr, Event.vTaskDelay 10], h2, ?_, rfl, rfl⟩
    simp only [emit, image_done, hb, if_false, image_sent, do_uart_get_data_ptr,
      List.append_assoc, List.cons_append, List.nil_append]

theorem slices_cover_image_chunks :
    slices_cover 0 MAX_BUFF_SIZE
      ((List.range 9).map (fun k => (Buf.img, SPI_PACKET_MAX_SIZE * k, SPI_PACKET_MAX_SIZE))
          ++ [(Buf.img, 36828, 1572)]) = true := by
  decide

/-- C5.  In SEND_IMAGE, when every send succeeds, the chunks sent after the 0x01
header are slices of the image buffer that follow one another without gap or
overlap from offset 0 to `MAX_BUFF_SIZE`, each lies inside the buffer, and the
bytes sent, in order, are the tag 0x01 followed by the whole image frame. -/
theorem send_image_chunks_cover_frame (U : Nat) (c : Sys)
    (hst : c.s.conn_state = 4) (hbits : c.w.evg_bits &&& DISCONNECTED_BIT = 0)
    (herr : c.s.conn_error = 0)
    (hs : ∀ k, k < 11 → 0 ≤ c.w.send_ret (c.w.n_send + k) ∧
      c.w.send_ret (c.w.n_send + k) ≤ 4092)
    (himg : (c.w.spi_data c.w.n_spi).length = MAX_BUFF_SIZE) :
    ∃ (c' : Sys) (evs : List Event) (chunks : List (Buf × Nat × Nat)),
      socket_task_iter U c = some c' ∧ c'.tr = c.tr ++ evs ∧
      sends_of evs = (Buf.header, 0, 1) :: chunks ∧
      slices_cover 0 MAX_BUFF_SIZE chunks = true ∧
      (∀ x ∈ chunks, x.2.1 + x.2.2 ≤ (c.w.spi_data c.w.n_spi).length) ∧
      sent_bytes evs = 1 :: c.w.spi_data c.w.n_spi := by
  obtain ⟨c', tl, hiter, htr, hsn, hsb⟩ := iter_send_image_summary U c hst hbits herr hs
  refine ⟨c', _, _, hiter, htr, ?_, slices_cover_image_chunks, ?_, ?_⟩
  · rw [sends_of_append, hsn, sends_of_image_events, List.append_nil]
  · intro x hx
    rw [himg]
    simp [List.range, List.range.loop, SPI_PACKET_MAX_SIZE, MAX_BUFF_SIZE] at hx ⊢
    rcases hx with h | h | h | h | h | h | h | h | h | h <;> subst h <;> decide
  · rw [sent_bytes_append, hsb, sent_bytes_image_events, List.append_nil,
      List.take_of_length_le (le_of_eq himg)]

/-- Witness of `send_image_chunks_cover_frame`: state 4 in `demo_world`. -/
theorem send_image_chunks_cover_frame_witness :
    ∃ (c' : Sys) (evs : List Event) (chunks : List (Buf × Nat × Nat)),
      socket_task_iter 5 (demo_sys 5 4 1 []) = some c' ∧
      c'.tr = (demo_sys 5 4 1 []).tr ++ evs ∧
      sends_of evs = (Buf.header, 0, 1) :: chunks ∧
      slices_cover 0 MAX_BUFF_SIZE chunks = true ∧
      (∀ x ∈ chunks, x.2.1 + x.2.2 ≤
        ((demo_sys 5 4 1 []).w.spi_data (demo_sys 5 4 1 []).w.n_spi).length) ∧
      sent_bytes evs = 1 :: (demo_sys 5 4 1 []).w.spi_data (demo_sys 5 4 1 []).w.n_spi :=
  send_image_chunks_cover_frame 5 (demo_sys 5 4 1 []) rfl (by decide) rfl
    (fun _ _ => ⟨(by decide : (0 : Int) ≤ 1), (by decide : (1 : Int) ≤ 4092)⟩) (List.length_replicate _ _)

/-- C6, counterexample.  In `demo_world`, where every send succeeds, the last
chunk SEND_IMAGE sends is 1572 bytes at offset 36828, not 1332 bytes: 9 chunks of
4092 bytes and one of 1332 would make 38160 bytes, not the 38400 of the image. -/
theorem image_remainder_not_1332 :
    (socket_task_iter 5 (demo_sys 5 4 1 [])).map (fun c => (sends_of c.tr).getLast?)
      = some (some (Buf.img, 36828, 1572)) ∧
    (1572 : Nat) ≠ 1332 ∧ 9 * SPI_PACKET_MAX_SIZE + 1332 ≠ MAX_BUFF_SIZE := by
  decide

/-- C6, amended.  For `MAX_BUFF_SIZE = 38400` and `SPI_PACKET_MAX_SIZE = 4092`,
when every send succeeds SEND_IMAGE sends, after the header, exactly 9 full chunks
of 4092 bytes followed by exactly 1 remainder chunk of 1572 bytes. -/
theorem send_image_chunk_sizes (U : Nat) (c : Sys)
    (hst : c.s.conn_state = 4) (hbits : c.w.evg_bits &&& DISCONNECTED_BIT = 0)
    (herr : c.s.conn_error = 0)
    (hs : ∀ k, k < 11 → 0 ≤ c.w.send_ret (c.w.n_send + k) ∧
      c.w.send_ret (c.w.n_send + k) ≤ 4092) :
    ∃ (c' : Sys) (evs : List Event),
      socket_task_iter U c = some c' ∧ c'.tr = c.tr ++ evs ∧
      sends_of evs = (Buf.header, 0, 1) ::
        ((List.range 9).map (fun k => (Buf.img, 4092 * k, 4092)) ++ [(Buf.img, 36828, 1572)]) ∧
      MAX_BUFF_SIZE = 38400 ∧ SPI_PACKET_MAX_SIZE = 4092 ∧ 9 * 4092 + 1572 = MAX_BUFF_SIZE := by
  obtain ⟨c', tl, hiter, htr, hsn, _⟩ := iter_send_image_summary U c hst hbits herr hs
  refine ⟨c', _, hiter, htr, ?_, rfl, rfl, rfl⟩
  rw [sends_of_append, hsn, sends_of_image_events, List.append_nil]
  rfl

/-- Witness of `send_image_chunk_sizes`: state 4 in `demo_world`. -/
theorem send_image_chunk_sizes_witness :
    ∃ (c' : Sys) (evs : List Event),
      socket_task_iter 5 (demo_sys 5 4 1 []) = some c' ∧
      c'.tr = (demo_sys 5 4 1 []).tr ++ evs ∧
      sends_of evs = (Buf.header, 0, 1) ::
        ((List.range 9).map (fun k => (Buf.img, 4092 * k, 4092)) ++ [(Buf.img, 36828, 1572)]) ∧
      MAX_BUFF_SIZE = 38400 ∧ SPI_PACKET_MAX_SIZE = 4092 ∧ 9 * 4092 + 1572 = MAX_BUFF_SIZE :=
  send_image_chunk_sizes 5 (demo_sys 5 4 1 []) rfl (by decide) rfl
    (fun _ _ => ⟨(by decide : (0 : Int) ≤ 1), (by decide : (1 : Int) ≤ 4092)⟩)

/-- C7.  For every successfully received command with mode 0, when the send
succeeds: over the two iterations (RECV_CMD, SEND_EMPTY) the only `send` is the
single tag byte 0x04 from the header, `uart_get_data_ptr` is called exactly once,
and the machine is back in RECV_CMD (3). -/
theorem mode_zero_reply (U : Nat) (c : Sys) (frags : List (List Nat))
    (cmd : List Nat) (rest : List RecvResult)
    (hst : c.s.conn_state = 3) (hbits : c.w.evg_bits &&& DISCONNECTED_BIT = 0)
    (herr : c.s.conn_error = 0)
    (hbuf : c.s.actuators_buff.length = ACTUATORS_BUFF_LEN)
    (hw : c.w.recv_rets = frags.map RecvResult.data ++ rest)
    (hcmd : frags.flatten = cmd) (hlen : cmd.length = 9)
    (hmode : cmd.getD 1 0 = 0) (hsend : 0 ≤ c.w.send_ret c.w.n_send) :
    ∃ (c' : Sys) (evs : List Event),
      socket_task_run U 2 c = some c' ∧
      c'.tr = c.tr ++ evs ∧
      sends_of evs = [(Buf.header, 0, 1)] ∧
      sent_bytes evs = [4] ∧
      evs.count Event.uart_get_data_ptr = 1 ∧
      c'.s.conn_state = 3 := by
  obtain ⟨c1, evs, x, hiter, hev, h1tr, h1st, h1mode, h1err, h1fd, h1w⟩ :=
    iter_recv_cmd_summary U c frags cmd rest hst hbits herr hbuf hw hcmd hlen
  have h6 : c1.s.conn_state = 6 := by
    rw [h1st, hmode]
    rfl
  have h1bits : c1.w.evg_bits &&& DISCONNECTED_BIT = 0 := by
    rw [h1w]
    exact hbits
  have h2 : socket_task_iter U c1 = some (emit (Event.vTaskDelay 10) (empty_done c1)) := by
    rw [iter_send_empty U c1 h6 h1bits, case_send_empty_ok c1 (by rw [h1w]; exact hsend)]
  refine ⟨emit (Event.vTaskDelay 10) (empty_done c1),
    evs ++ [Event.uart_set_actuators_state (cmd.take 8), Event.vTaskDelay 10] ++
      [Event.send c1.s.client_sock Buf.header 0 1 [4] (c1.w.send_ret c1.w.n_send),
        Event.uart_get_data_ptr, Event.vTaskDelay 10], ?_, ?_, ?_, ?_, ?_, rfl⟩
  · simp only [socket_task_run, hiter, h2]
  · simp only [emit, empty_done, h1tr, List.append_assoc, List.cons_append, List.nil_append]
  · rw [sends_of_append, sends_of_append, sends_of_recvs evs hev]
    rfl
  · rw [sent_bytes_append, sent_bytes_append, sent_bytes_recvs evs hev]
    rfl
  · rw [List.count_append, List.count_append, count_recvs evs hev Event.uart_get_data_ptr rfl]
    rfl

/-- Witness of `mode_zero_reply`: the command `demo_cmd 0` cut in four `recv`
results. -/
theorem mode_zero_reply_witness :
    ∃ (c' : Sys) (evs : List Event),
      socket_task_run 5 2 (demo_sys 5 3 1 ((demo_frags 0).map RecvResult.data)) = some c' ∧
      c'.tr = (demo_sys 5 3 1 ((demo_frags 0).map RecvResult.data)).tr ++ evs ∧
      sends_of evs = [(Buf.header, 0, 1)] ∧
      sent_bytes evs = [4] ∧
      evs.count Event.uart_get_data_ptr = 1 ∧
      c'.s.conn_state = 3 :=
  mode_zero_reply 5 (demo_sys 5 3 1 ((demo_frags 0).map RecvResult.data))
    (demo_frags 0) (demo_cmd 0) [] rfl (by decide) rfl rfl rfl rfl rfl rfl (by decide)

/-- C10.  If a `recv` call in RECV_CMD returns a negative result (after any run
of calls that delivered fewer than 9 bytes in all), the receive loop stops at
once: the results of later `recv` calls are left untouched, the calls of the
iteration are the `recv` calls, the error report and the delay (no call of the
Actuator Sink, no `send`, no `close`, no `socket`), the next state is ACCEPT (2),
and the listening socket is the same as before. -/
theorem recv_error_goes_to_accept (U : Nat) (c : Sys) (pre : List (List Nat))
    (rest : List RecvResult)
    (hst : c.s.conn_state = 3) (hbits : c.w.evg_bits &&& DISCONNECTED_BIT = 0)
    (hw : c.w.recv_rets = pre.map RecvResult.data ++ RecvResult.error :: rest)
    (hpre : pre.flatten.length < 9) :
    ∃ (c' : Sys) (evs : List Event),
      socket_task_iter U c = some c' ∧
      (∀ e ∈ evs, Event.is_recv e = true) ∧
      c'.tr = c.tr ++ evs ++
        [Event.recv c.s.client_sock (pre.flatten.length : Int) (9 - pre.flatten.length) (-1),
         Event.show_socket_error_reason ErrSite.recv_cmd c.s.client_sock,
         Event.vTaskDelay 10] ∧
      c'.w.recv_rets = rest ∧
      c'.s.conn_state = 2 ∧
      c'.s.server_sock = c.s.server_sock ∧
      c'.w.n_socket = c.w.n_socket ∧ c'.w.n_send = c.w.n_send := by
  obtain ⟨x, l, evs, hev, hx, hloop⟩ :=
    recv_cmd_loop_data pre (RecvResult.error :: rest) { c with s := { c.s with to_recv := 9 } } hw
      (by simp only; omega) (by simp)
  have hx2 : x = RecvResult.error :: rest := hx (by simp only; omega)
  subst hx2
  have hoff : (9 : Int) - ((9 - pre.flatten.length : Nat) : Int) = (pre.flatten.length : Int) := by
    omega
  have hcase : ∃ c1 : Sys, case_recv_cmd c = some c1 ∧
      c1.tr = c.tr ++ evs ++
        [Event.recv c.s.client_sock (pre.flatten.length : Int) (9 - pre.flatten.length) (-1),
         Event.show_socket_error_reason ErrSite.recv_cmd c.s.client_sock] ∧
      c1.w.recv_rets = rest ∧ c1.s.conn_state = 2 ∧ c1.s.server_sock = c.s.server_sock ∧
      c1.w.n_socket = c.w.n_socket ∧ c1.w.n_send = c.w.n_send := by
    rw [case_recv_cmd, hw, hloop, recv_cmd_loop_step_error]
    · simp only [emit, recv_upd, hoff, List.append_assoc, List.cons_append, List.nil_append,
        one_ne_zero, if_false]
      exact ⟨_, rfl, rfl, rfl, rfl, rfl, rfl, rfl⟩
    · simp only [recv_upd]
      omega
  obtain ⟨c1, hc1, h1tr, h1rets, h1st, h1sock, h1ns, h1nd⟩ := hcase
  refine ⟨emit (Event.vTaskDelay 10) c1, evs, ?_, hev, ?_, h1rets, h1st, h1sock, h1ns, h1nd⟩
  · simp [socket_task_iter, check_disconnected_clear c hbits, dispatch, hst, hc1]
  · simp only [emit, h1tr, List.append_assoc, List.cons_append, List.nil_append]

/-- Witness of `recv_error_goes_to_accept`: 5 bytes arrive in two `recv` calls, a
third returns nothing, the fourth fails. -/
theorem recv_error_goes_to_accept_witness :
    ∃ (c' : Sys) (evs : List Event),
      socket_task_iter 5 (demo_sys 5 3 1
        ([[0, 1], [0, 0, 0], []].map RecvResult.data ++
          RecvResult.error :: [RecvResult.data [7]])) = some c' ∧
      (∀ e ∈ evs, Event.is_recv e = true) ∧
      c'.tr = (demo_sys 5 3 1 ([[0, 1], [0, 0, 0], []].map RecvResult.data ++
          RecvResult.error :: [RecvResult.data [7]])).tr ++ evs ++
        [Event.recv 4 (([[0, 1], [0, 0, 0], []] : List (List Nat)).flatten.length : Int)
            (9 - ([[0, 1], [0, 0, 0], []] : List (List Nat)).flatten.length) (-1),
         Event.show_socket_error_reason ErrSite.recv_cmd 4,
         Event.vTaskDelay 10] ∧
      c'.w.recv_rets = [RecvResult.data [7]] ∧
      c'.s.conn_state = 2 ∧
      c'.s.server_sock = 3 ∧
      c'.w.n_socket = 1 ∧ c'.w.n_send = 0 :=
  recv_error_goes_to_accept 5 (demo_sys 5 3 1 ([[0, 1], [0, 0, 0], []].map RecvResult.data ++
      RecvResult.error :: [RecvResult.data [7]])) [[0, 1], [0, 0, 0], []] [RecvResult.data [7]]
    rfl (by decide) rfl (by decide)

/-! ## Listening, accepting, disconnecting -/

theorem iter_listen (U : Nat) (c : Sys) (hst : c.s.conn_state = 1)
    (hbits : c.w.evg_bits &&& DISCONNECTED_BIT = 0) :
    socket_task_iter U c = some (emit (Event.vTaskDelay 10) (case_listen c)) := by
  simp [socket_task_iter, check_disconnected_clear c hbits, dispatch, hst]

/-- C16.  In LISTEN (state 1): if `socket`, `bind` and `listen` (backlog 1) all
succeed the next state is ACCEPT (2); if `bind` fails, or `listen` fails, the socket
just created is closed and the state stays LISTEN; if `socket` itself fails the
state stays LISTEN and nothing is closed. -/
theorem listen_outcomes (U : Nat) (c : Sys) (hst : c.s.conn_state = 1)
    (hbits : c.w.evg_bits &&& DISCONNECTED_BIT = 0) :
    (0 ≤ c.w.socket_ret c.w.n_socket → 0 ≤ c.w.bind_ret c.w.n_bind →
      0 ≤ c.w.listen_ret c.w.n_listen →
      ∃ c', socket_task_iter U c = some c' ∧ c'.s.conn_state = 2 ∧
        c'.s.server_sock = c.w.socket_ret c.w.n_socket ∧
        c'.tr = c.tr ++ [Event.socket (c.w.socket_ret c.w.n_socket),
          Event.bind (c.w.socket_ret c.w.n_socket) TCP_PORT (c.w.bind_ret c.w.n_bind),
          Event.listen (c.w.socket_ret c.w.n_socket) 1 (c.w.listen_ret c.w.n_listen),
          Event.vTaskDelay 10]) ∧
    (0 ≤ c.w.socket_ret c.w.n_socket → c.w.bind_ret c.w.n_bind < 0 →
      ∃ c', socket_task_iter U c = some c' ∧ c'.s.conn_state = 1 ∧
        c'.tr = c.tr ++ [Event.socket (c.w.socket_ret c.w.n_socket),
          Event.bind (c.w.socket_ret c.w.n_socket) TCP_PORT (c.w.bind_ret c.w.n_bind),
          Event.show_socket_error_reason ErrSite.bind_server (c.w.socket_ret c.w.n_socket),
          Event.close (c.w.socket_ret c.w.n_socket),
          Event.vTaskDelay 10]) ∧
    (0 ≤ c.w.socket_ret c.w.n_socket → 0 ≤ c.w.bind_ret c.w.n_bind →
      c.w.listen_ret c.w.n_listen < 0 →
      ∃ c', socket_task_iter U c = some c' ∧ c'.s.conn_state = 1 ∧
        c'.tr = c.tr ++ [Event.socket (c.w.socket_ret c.w.n_socket),
          Event.bind (c.w.socket_ret c.w.n_socket) TCP_PORT (c.w.bind_ret c.w.n_bind),
          Event.listen (c.w.socket_ret c.w.n_socket) 1 (c.w.listen_ret c.w.n_listen),
          Event.show_socket_error_reason ErrSite.listen_server (c.w.socket_ret c.w.n_socket),
          Event.close (c.w.socket_ret c.w.n_socket),
          Event.vTaskDelay 10]) ∧
    (c.w.socket_ret c.w.n_socket < 0 →
      ∃ c', socket_task_iter U c = some c' ∧ c'.s.conn_state = 1 ∧
        c'.tr = c.tr ++ [Event.socket (c.w.socket_ret c.w.n_socket),
          Event.show_socket_error_reason ErrSite.create_server (c.w.socket_ret c.w.n_socket),
          Event.vTaskDelay 10]) := by
  rw [iter_listen U c hst hbits]
  refine ⟨?_, ?_, ?_, ?_⟩
  · intro h1 h2 h3
    refine ⟨_, rfl, ?_, ?_, ?_⟩ <;>
      simp only [case_listen, emit, not_lt.mpr h1, not_lt.mpr h2, not_lt.mpr h3, if_false,
        List.append_assoc, List.cons_append, List.nil_append]
  · intro h1 h2
    refine ⟨_, rfl, ?_, ?_⟩ <;>
      simp only [case_listen, emit, not_lt.mpr h1, h2, if_false, if_true,
        List.append_assoc, List.cons_append, List.nil_append, hst]
  · intro h1 h2 h3
    refine ⟨_, rfl, ?_, ?_⟩ <;>
      simp only [case_listen, emit, not_lt.mpr h1, not_lt.mpr h2, h3, if_false, if_true,
        List.append_assoc, List.cons_append, List.nil_append, hst]
  · intro h1
    refine ⟨_, rfl, ?_, ?_⟩ <;>
      simp only [case_listen, emit, h1, if_true,
        List.append_assoc, List.cons_append, List.nil_append, hst]

/-- Witness of `listen_outcomes`: all calls succeed; `bind` fails; `listen` fails;
`socket` fails. -/
theorem listen_outcomes_witness :
    (∃ c', socket_task_iter 5 (test_sys (test_world 3 0 0 4 (fun _ => 1) 1 []) 1) = some c' ∧
        c'.s.conn_state = 2 ∧ c'.s.server_sock = 3 ∧
        c'.tr = [Event.socket 3, Event.bind 3 TCP_PORT 0, Event.listen 3 1 0,
          Event.vTaskDelay 10]) ∧
    (∃ c', socket_task_iter 5 (test_sys (test_world 3 (-1) 0 4 (fun _ => 1) 1 []) 1) = some c' ∧
        c'.s.conn_state = 1 ∧
        c'.tr = [Event.socket 3, Event.bind 3 TCP_PORT (-1),
          Event.show_socket_error_reason ErrSite.bind_server 3, Event.close 3,
          Event.vTaskDelay 10]) ∧
    (∃ c', socket_task_iter 5 (test_sys (test_world 3 0 (-1) 4 (fun _ => 1) 1 []) 1) = some c' ∧
        c'.s.conn_state = 1 ∧
        c'.tr = [Event.socket 3, Event.bind 3 TCP_PORT 0, Event.listen 3 1 (-1),
          Event.show_socket_error_reason ErrSite.listen_server 3, Event.close 3,
          Event.vTaskDelay 10]) ∧
    (∃ c', socket_task_iter 5 (test_sys (test_world (-1) 0 0 4 (fun _ => 1) 1 []) 1) = some c' ∧
        c'.s.conn_state = 1 ∧
        c'.tr = [Event.socket (-1), Event.show_socket_error_reason ErrSite.create_server (-1),
          Event.vTaskDelay 10]) :=
  ⟨(listen_outcomes 5 (test_sys (test_world 3 0 0 4 (fun _ => 1) 1 []) 1) rfl (by decide)).1
      (by decide) (by decide) (by decide),
   (listen_outcomes 5 (test_sys (test_world 3 (-1) 0 4 (fun _ => 1) 1 []) 1) rfl
      (by decide)).2.1 (by decide) (by decide),
   (listen_outcomes 5 (test_sys (test_world 3 0 (-1) 4 (fun _ => 1) 1 []) 1) rfl
      (by decide)).2.2.1 (by decide) (by decide) (by decide),
   (listen_outcomes 5 (test_sys (test_world (-1) 0 0 4 (fun _ => 1) 1 []) 1) rfl
      (by decide)).2.2.2 (by decide)⟩

theorem iter_accept (U : Nat) (c : Sys) (hst : c.s.conn_state = 2)
    (hbits : c.w.evg_bits &&& DISCONNECTED_BIT = 0) :
    socket_task_iter U c = some (emit (Event.vTaskDelay 10) (case_accept c)) := by
  simp [socket_task_iter, check_disconnected_clear c hbits, dispatch, hst]

/-- C12, as the code behaves.  In ACCEPT (state 2): if `accept` succeeds the next
state is RECV_CMD (3), with `conn_error` reset; if `accept` fails the listening
socket is closed and the state stays ACCEPT (2), not LISTEN: no socket is created,
`server_sock` still names the closed socket, and the next iteration calls `accept`
on it. -/
theorem accept_outcomes (U : Nat) (c : Sys) (hst : c.s.conn_state = 2)
    (hbits : c.w.evg_bits &&& DISCONNECTED_BIT = 0) :
    (0 ≤ c.w.accept_ret c.w.n_accept →
      ∃ c', socket_task_iter U c = some c' ∧ c'.s.conn_state = 3 ∧
        c'.s.client_sock = c.w.accept_ret c.w.n_accept ∧ c'.s.conn_error = 0 ∧
        c'.tr = c.tr ++ [Event.rgb_led2_gpio_set 1 0 1,
          Event.accept c.s.server_sock (c.w.accept_ret c.w.n_accept),
          Event.vTaskDelay 10]) ∧
    (c.w.accept_ret c.w.n_accept < 0 →
      ∃ c', socket_task_iter U c = some c' ∧ c'.s.conn_state = 2 ∧
        c'.s.server_sock = c.s.server_sock ∧ c'.w.n_socket = c.w.n_socket ∧
        c'.tr = c.tr ++ [Event.rgb_led2_gpio_set 1 0 1,
          Event.accept c.s.server_sock (c.w.accept_ret c.w.n_accept),
          Event.show_socket_error_reason ErrSite.accept_server (c.w.accept_ret c.w.n_accept),
          Event.close c.s.server_sock,
          Event.vTaskDelay 10]) := by
  rw [iter_accept U c hst hbits]
  refine ⟨?_, ?_⟩
  · intro h1
    refine ⟨_, rfl, ?_, ?_, ?_, ?_⟩ <;>
      simp only [case_accept, emit, not_lt.mpr h1, if_false,
        List.append_assoc, List.cons_append, List.nil_append]
  · intro h1
    refine ⟨_, rfl, ?_, ?_, ?_, ?_⟩ <;>
      simp only [case_accept, emit, h1, if_true,
        List.append_assoc, List.cons_append, List.nil_append, hst]

/-- Witness of `accept_outcomes`: `accept` returns 4; `accept` returns -1. -/
theorem accept_outcomes_witness :
    (∃ c', socket_task_iter 5 (test_sys (test_world 3 0 0 4 (fun _ => 1) 1 []) 2) = some c' ∧
        c'.s.conn_state = 3 ∧ c'.s.client_sock = 4 ∧ c'.s.conn_error = 0 ∧
        c'.tr = [Event.rgb_led2_gpio_set 1 0 1, Event.accept 3 4, Event.vTaskDelay 10]) ∧
    (∃ c', socket_task_iter 5 (test_sys (test_world 3 0 0 (-1) (fun _ => 1) 1 []) 2) = some c' ∧
        c'.s.conn_state = 2 ∧ c'.s.server_sock = 3 ∧ c'.w.n_socket = 0 ∧
        c'.tr = [Event.rgb_led2_gpio_set 1 0 1, Event.accept 3 (-1),
          Event.show_socket_error_reason ErrSite.accept_server (-1), Event.close 3,
          Event.vTaskDelay 10]) :=
  ⟨(accept_outcomes 5 (test_sys (test_world 3 0 0 4 (fun _ => 1) 1 []) 2) rfl (by decide)).1
      (by decide),
   (accept_outcomes 5 (test_sys (test_world 3 0 0 (-1) (fun _ => 1) 1 []) 2) rfl (by decide)).2
      (by decide)⟩

theorem iter_disconnected (U : Nat) (c : Sys)
    (hdis : c.w.evg_bits &&& DISCONNECTED_BIT ≠ 0)
    (hcon : c.w.evg_bits &&& CONNECTED_BIT = CONNECTED_BIT) :
    socket_task_iter U c = some
      { c with s := { c.s with conn_state := 1 },
               tr := c.tr ++ [Event.close c.s.server_sock,
                 Event.xEventGroupWaitBits CONNECTED_BIT, Event.vTaskDelay 10] } := by
  simp only [socket_task_iter, check_disconnected, hdis, ne_eq, not_false_eq_true, if_true,
    dispatch, case_wait_connect, emit, hcon, List.append_assoc, List.cons_append,
    List.nil_append]

/-- C13.  For every state, an iteration that observes the Disconnected flag
first calls `close` on the listening socket and then dispatches from WAIT_CONNECT
(state 0) whatever the state was: if Connected is raised the calls of the iteration
are that `close`, the wait and the delay, none of them an `accept`, `recv`, `send`,
Actuator Sink or frame-source call, and the next state is LISTEN (1); if Connected
is down the task stays blocked in the wait after the `close`. -/
theorem disconnected_iteration (U : Nat) (c : Sys)
    (hdis : c.w.evg_bits &&& DISCONNECTED_BIT ≠ 0) :
    (check_disconnected c).tr = c.tr ++ [Event.close c.s.server_sock] ∧
    (check_disconnected c).s.conn_state = 0 ∧
    dispatch U (check_disconnected c) = case_wait_connect (check_disconnected c) ∧
    (c.w.evg_bits &&& CONNECTED_BIT = CONNECTED_BIT →
      ∃ c', socket_task_iter U c = some c' ∧ c'.s.conn_state = 1 ∧
        c'.tr = c.tr ++ [Event.close c.s.server_sock,
          Event.xEventGroupWaitBits CONNECTED_BIT, Event.vTaskDelay 10] ∧
        ∀ e ∈ [Event.close c.s.server_sock,
          Event.xEventGroupWaitBits CONNECTED_BIT, Event.vTaskDelay 10],
          Event.is_session_call e = false) ∧
    (c.w.evg_bits &&& CONNECTED_BIT ≠ CONNECTED_BIT → socket_task_iter U c = none) := by
  have hcd : check_disconnected c =
      { (emit (Event.close c.s.server_sock) c) with
        s := { (emit (Event.close c.s.server_sock) c).s with conn_state := 0 } } := by
    simp only [check_disconnected, hdis, ne_eq, not_false_eq_true, if_true]
  refine ⟨?_, ?_, ?_, ?_, ?_⟩
  · rw [hcd]
    rfl
  · rw [hcd]
  · rw [hcd]
    rfl
  · intro hcon
    refine ⟨_, iter_disconnected U c hdis hcon, rfl, rfl, ?_⟩
    · intro e he
      simp only [List.mem_cons, List.mem_singleton, List.not_mem_nil, or_false] at he
      rcases he with h | h | h <;> subst h <;> rfl
  · intro hcon
    simp only [socket_task_iter, hcd, dispatch, case_wait_connect, emit, hcon, if_false]

/-- Witness of `disconnected_iteration`: state 4 (SEND_IMAGE) with both flags
raised. -/
theorem disconnected_iteration_witness :
    (check_disconnected (test_sys (test_world 3 0 0 4 (fun _ => 1) 3 []) 4)).tr = [Event.close 3] ∧
    (check_disconnected (test_sys (test_world 3 0 0 4 (fun _ => 1) 3 []) 4)).s.conn_state = 0 ∧
    dispatch 5 (check_disconnected (test_sys (test_world 3 0 0 4 (fun _ => 1) 3 []) 4)) =
      case_wait_connect (check_disconnected (test_sys (test_world 3 0 0 4 (fun _ => 1) 3 []) 4)) ∧
    ((3 : Nat) &&& CONNECTED_BIT = CONNECTED_BIT →
      ∃ c', socket_task_iter 5 (test_sys (test_world 3 0 0 4 (fun _ => 1) 3 []) 4) = some c' ∧
        c'.s.conn_state = 1 ∧
        c'.tr = [] ++ [Event.close 3, Event.xEventGroupWaitBits CONNECTED_BIT,
          Event.vTaskDelay 10] ∧
        ∀ e ∈ [Event.close 3, Event.xEventGroupWaitBits CONNECTED_BIT, Event.vTaskDelay 10],
          Event.is_session_call e = false) ∧
    ((3 : Nat) &&& CONNECTED_BIT ≠ CONNECTED_BIT →
      socket_task_iter 5 (test_sys (test_world 3 0 0 4 (fun _ => 1) 3 []) 4) = none) :=
  disconnected_iteration 5 (test_sys (test_world 3 0 0 4 (fun _ => 1) 3 []) 4) (by decide)

/-! ## Zero-length results of `recv` -/

/-- The receive loop only adds calls to the trace. -/
theorem recv_cmd_loop_trace (rs : List RecvResult) :
    ∀ (c c' : Sys), recv_cmd_loop rs c = some c' → ∃ tl, c'.tr = c.tr ++ tl := by
  induction rs with
  | nil =>
    intro c c' h
    by_cases hz : c.s.to_recv > 0
    · simp [recv_cmd_loop, hz] at h
    · simp only [recv_cmd_loop, hz, if_false, Option.some.injEq] at h
      exact ⟨[], by rw [← h, List.append_nil]⟩
  | cons r rest ih =>
    intro c c' h
    by_cases hz : c.s.to_recv > 0
    · rw [recv_cmd_loop] at h
      simp only [hz, if_true] at h
      split_ifs at h with h1 h2
      · obtain ⟨tl, htl⟩ := ih _ _ h
        exact ⟨_, htl.trans (List.append_assoc _ _ _)⟩
      · simp only [Option.some.injEq] at h
        exact ⟨_, (congrArg Sys.tr h.symm).trans (List.append_assoc _ _ _)⟩
      · obtain ⟨tl, htl⟩ := ih _ _ h
        exact ⟨_, htl.trans (List.append_assoc _ _ _)⟩
    · rw [recv_cmd_loop] at h
      simp only [hz, if_false, Option.some.injEq] at h
      exact ⟨[], by rw [← h, List.append_nil]⟩

/-- The first call of the receive loop, when bytes are awaited. -/
theorem recv_cmd_loop_first_call (r : RecvResult) (rest : List RecvResult) (c c' : Sys)
    (hpos : 0 < c.s.to_recv) (h : recv_cmd_loop (r :: rest) c = some c') :
    ∃ tl, c'.tr = c.tr ++
      Event.recv c.s.client_sock (9 - (c.s.to_recv : Int)) c.s.to_recv r.ret :: tl := by
  rw [recv_cmd_loop] at h
  simp only [gt_iff_lt, hpos, if_true] at h
  split_ifs at h with h1 h2
  · obtain ⟨tl, htl⟩ := recv_cmd_loop_trace _ _ _ h
    exact ⟨tl, htl.trans (List.append_assoc _ _ _)⟩
  · simp only [Option.some.injEq] at h
    exact ⟨_, (congrArg Sys.tr h.symm).trans (List.append_assoc _ _ _)⟩
  · obtain ⟨tl, htl⟩ := recv_cmd_loop_trace _ _ _ h
    exact ⟨tl, htl.trans (List.append_assoc _ _ _)⟩

/-- The receive loop over `recv` results that deliver exactly the bytes awaited:
the loop ends, with every byte stored from the offset of the first call on. -/
theorem recv_cmd_loop_whole (f : List Nat) (fs : List (List Nat)) (rest : List RecvResult)
    (c : Sys) (hpos : 0 < c.s.to_recv) (h9 : c.s.to_recv ≤ 9)
    (hlen : (f :: fs).flatten.length = c.s.to_recv) :
    ∃ (x : List RecvResult) (l : Int) (evs : List Event),
      (∀ e ∈ evs, Event.is_recv e = true) ∧
      recv_cmd_loop (RecvResult.data f :: (fs.map RecvResult.data ++ rest)) c =
        some (recv_upd c x 0 l
          (store_bytes c.s.actuators_buff c.s.stray (9 - (c.s.to_recv : Int)) (f :: fs).flatten)
          (Event.recv c.s.client_sock (9 - (c.s.to_recv : Int)) c.s.to_recv (f.length : Int)
            :: evs)) := by
  simp only [List.flatten_cons, List.length_append] at hlen
  rw [recv_cmd_loop_step_data f _ c hpos (by omega) h9]
  obtain ⟨x, l, evs, hev, _, hloop⟩ :=
    recv_cmd_loop_data fs rest
      (recv_upd c (fs.map RecvResult.data ++ rest) (c.s.to_recv - f.length) (f.length : Int)
        (store_bytes c.s.actuators_buff c.s.stray (9 - (c.s.to_recv : Int)) f)
        [Event.recv c.s.client_sock (9 - (c.s.to_recv : Int)) c.s.to_recv (f.length : Int)])
      rfl (by simp only [recv_upd]; omega) (by simp only [recv_upd]; omega)
  refine ⟨x, l, evs, hev, ?_⟩
  rw [hloop, recv_cmd_loop_done _ _ (by simp only [recv_upd]; omega)]
  congr 1
  simp only [recv_upd, List.flatten_cons, store_bytes_append, List.append_assoc,
    List.singleton_append]
  have e1 : (9 : Int) - ((c.s.to_recv - f.length : Nat) : Int)
      = 9 - (c.s.to_recv : Int) + (f.length : Int) := by omega
  have e2 : c.s.to_recv - f.length - fs.flatten.length = 0 := by omega
  rw [e1, e2]

/-- C17.  In the receive loop of RECV_CMD a `recv` that returns 0 is retried.  With
`to_recv` bytes awaited (1 to 9), a first `recv` returning 0 and further results
delivering exactly the bytes awaited, the loop returns: its first two calls are
`recv` at the same offset `9 - to_recv` for the same count `to_recv`, every later
call is a `recv`, the count awaited ends at 0, the error flag and the state are
those of the start, and the memory is the one the delivered bytes alone give from
the first offset on, as in the run without the zero-length result.  After the
zero-length result alone the loop goes on with the count, the offset, the array,
the bytes outside it, the error flag and the state unchanged; with no further
result it stays blocked; and when the next `recv` fails, that call, at the same
offset for the same count, is the one that sets the error flag. -/
theorem recv_zero_is_retried (f : List Nat) (fs : List (List Nat)) (rest : List RecvResult)
    (c : Sys) (hpos : 0 < c.s.to_recv) (h9 : c.s.to_recv ≤ 9)
    (hlen : (f :: fs).flatten.length = c.s.to_recv) :
    ∃ (c1 c2 c3 c4 : Sys) (evs : List Event),
      recv_cmd_loop (RecvResult.data [] :: RecvResult.data f ::
          (fs.map RecvResult.data ++ rest)) c = some c2 ∧
      c2.tr = c.tr ++
        Event.recv c.s.client_sock (9 - (c.s.to_recv : Int)) c.s.to_recv 0 ::
        Event.recv c.s.client_sock (9 - (c.s.to_recv : Int)) c.s.to_recv (f.length : Int) ::
        evs ∧
      (∀ e ∈ evs, Event.is_recv e = true) ∧
      c2.s.to_recv = 0 ∧
      c2.s.conn_error = c.s.conn_error ∧ c2.s.conn_state = c.s.conn_state ∧
      (c2.s.actuators_buff, c2.s.stray) =
        store_bytes c.s.actuators_buff c.s.stray (9 - (c.s.to_recv : Int)) (f :: fs).flatten ∧
      recv_cmd_loop (RecvResult.data f :: (fs.map RecvResult.data ++ rest)) c = some c3 ∧
      c3.s.actuators_buff = c2.s.actuators_buff ∧ c3.s.stray = c2.s.stray ∧
      c3.s.to_recv = c2.s.to_recv ∧ c3.s.conn_error = c2.s.conn_error ∧
      c3.s.conn_state = c2.s.conn_state ∧
      recv_cmd_loop (RecvResult.data [] :: RecvResult.data f ::
          (fs.map RecvResult.data ++ rest)) c =
        recv_cmd_loop (RecvResult.data f :: (fs.map RecvResult.data ++ rest)) c1 ∧
      c1.tr = c.tr ++ [Event.recv c.s.client_sock (9 - (c.s.to_recv : Int)) c.s.to_recv 0] ∧
      c1.s.to_recv = c.s.to_recv ∧
      c1.s.actuators_buff = c.s.actuators_buff ∧ c1.s.stray = c.s.stray ∧
      c1.s.conn_error = c.s.conn_error ∧ c1.s.conn_state = c.s.conn_state ∧
      c1.w.recv_rets = RecvResult.data f :: (fs.map RecvResult.data ++ rest) ∧
      recv_cmd_loop [RecvResult.data []] c = none ∧
      recv_cmd_loop (RecvResult.data [] :: RecvResult.error :: rest) c = some c4 ∧
      c4.tr = c.tr ++
        [Event.recv c.s.client_sock (9 - (c.s.to_recv : Int)) c.s.to_recv 0,
         Event.recv c.s.client_sock (9 - (c.s.to_recv : Int)) c.s.to_recv (-1),
         Event.show_socket_error_reason ErrSite.recv_cmd c.s.client_sock] ∧
      c4.s.conn_error = 1 ∧ c4.s.to_recv = c.s.to_recv ∧
      c4.s.actuators_buff = c.s.actuators_buff ∧ c4.s.stray = c.s.stray := by
  have h16 : to_int16 (0 : Int) = 0 := by decide
  have hstep : ∀ rs : List RecvResult, recv_cmd_loop (RecvResult.data [] :: rs) c =
      recv_cmd_loop rs
        { c with w := { c.w with recv_rets := rs },
                 s := { c.s with len := 0 },
                 tr := c.tr ++ [Event.recv c.s.client_sock (9 - (c.s.to_recv : Int))
                         c.s.to_recv 0] } := by
    intro rs
    rw [recv_cmd_loop]
    simp only [gt_iff_lt, hpos, if_true, RecvResult.ret, RecvResult.stored, List.length_nil,
      Nat.cast_zero, h16, lt_self_iff_false, if_false, store_bytes]
  obtain ⟨x, l, evs, hev, hloop⟩ := recv_cmd_loop_whole f fs rest
    { c with w := { c.w with recv_rets := RecvResult.data f :: (fs.map RecvResult.data ++ rest) },
             s := { c.s with len := 0 },
             tr := c.tr ++ [Event.recv c.s.client_sock (9 - (c.s.to_recv : Int))
                     c.s.to_recv 0] } hpos h9 hlen
  obtain ⟨x3, l3, evs3, _, hloop3⟩ := recv_cmd_loop_whole f fs rest c hpos h9 hlen
  refine ⟨_, _, _, _, evs, (hstep _).trans hloop, ?_, hev, rfl, rfl, rfl, rfl, hloop3,
    rfl, rfl, rfl, rfl, rfl, hstep _, rfl, rfl, rfl, rfl, rfl, rfl, rfl, ?_,
    (hstep _).trans (recv_cmd_loop_step_error rest _ hpos), ?_, rfl, rfl, rfl, rfl⟩
  · simp only [recv_upd, List.append_assoc, List.singleton_append]
  · rw [hstep]
    simp only [recv_cmd_loop, gt_iff_lt, hpos, if_true]
  · simp only [emit, List.append_assoc, List.singleton_append, List.cons_append,
      List.nil_append]

/-- Witness of `recv_zero_is_retried`: 9 bytes awaited; a `recv` returns nothing, the
next one two bytes, one more returns nothing, and two more deliver the other seven
bytes.  The loop returns after five `recv` calls, the first two at offset 0 for 9
bytes, with the error flag clear. -/
theorem recv_zero_is_retried_witness :
    (0 < (recv_upd (demo_sys 5 3 1 []) [] 9 0 ([0, 0, 0, 0, 0, 0, 0, 0], []) []).s.to_recv ∧
     (recv_upd (demo_sys 5 3 1 []) [] 9 0 ([0, 0, 0, 0, 0, 0, 0, 0], []) []).s.to_recv ≤ 9 ∧
     ([0, 1] :: [[], [0, 0, 0], [0, 0, 0, 5]]).flatten.length =
       (recv_upd (demo_sys 5 3 1 []) [] 9 0 ([0, 0, 0, 0, 0, 0, 0, 0], []) []).s.to_recv) ∧
    (recv_cmd_loop
        [RecvResult.data [], RecvResult.data [0, 1], RecvResult.data [],
         RecvResult.data [0, 0, 0], RecvResult.data [0, 0, 0, 5]]
        (recv_upd (demo_sys 5 3 1 []) [] 9 0 ([0, 0, 0, 0, 0, 0, 0, 0], []) [])).map
      (fun c => (c.tr, c.s.to_recv, c.s.conn_error, c.s.conn_state, c.s.actuators_buff,
        c.s.stray)) =
      some ([Event.recv 4 0 9 0, Event.recv 4 0 9 2, Event.recv 4 2 7 0, Event.recv 4 2 7 3,
             Event.recv 4 5 4 4], 0, 0, 3, [0, 1, 0, 0, 0, 0, 0, 0], [(8, 5)]) ∧
    ∃ (c1 c2 c3 c4 : Sys) (evs : List Event),
      recv_cmd_loop
        [RecvResult.data [], RecvResult.data [0, 1], RecvResult.data [],
         RecvResult.data [0, 0, 0], RecvResult.data [0, 0, 0, 5]]
        (recv_upd (demo_sys 5 3 1 []) [] 9 0 ([0, 0, 0, 0, 0, 0, 0, 0], []) []) = some c2 ∧
      c2.tr = [] ++ Event.recv 4 0 9 0 :: Event.recv 4 0 9 2 :: evs ∧
      (∀ e ∈ evs, Event.is_recv e = true) ∧
      c2.s.to_recv = 0 ∧ c2.s.conn_error = 0 ∧ c2.s.conn_state = 3 ∧
      (c2.s.actuators_buff, c2.s.stray) = ([0, 1, 0, 0, 0, 0, 0, 0], [(8, 5)]) ∧
      recv_cmd_loop
        [RecvResult.data [0, 1], RecvResult.data [],
         RecvResult.data [0, 0, 0], RecvResult.data [0, 0, 0, 5]]
        (recv_upd (demo_sys 5 3 1 []) [] 9 0 ([0, 0, 0, 0, 0, 0, 0, 0], []) []) = some c3 ∧
      c3.s.actuators_buff = c2.s.actuators_buff ∧ c3.s.stray = c2.s.stray ∧
      c3.s.to_recv = c2.s.to_recv ∧ c3.s.conn_error = c2.s.conn_error ∧
      c3.s.conn_state = c2.s.conn_state ∧
      recv_cmd_loop
        [RecvResult.data [], RecvResult.data [0, 1], RecvResult.data [],
         RecvResult.data [0, 0, 0], RecvResult.data [0, 0, 0, 5]]
        (recv_upd (demo_sys 5 3 1 []) [] 9 0 ([0, 0, 0, 0, 0, 0, 0, 0], []) []) =
        recv_cmd_loop
          [RecvResult.data [0, 1], RecvResult.data [],
           RecvResult.data [0, 0, 0], RecvResult.data [0, 0, 0, 5]] c1 ∧
      c1.tr = [] ++ [Event.recv 4 0 9 0] ∧
      c1.s.to_recv = 9 ∧
      c1.s.actuators_buff = [0, 0, 0, 0, 0, 0, 0, 0] ∧ c1.s.stray = [] ∧
      c1.s.conn_error = 0 ∧ c1.s.conn_state = 3 ∧
      c1.w.recv_rets =
        [RecvResult.data [0, 1], RecvResult.data [],
         RecvResult.data [0, 0, 0], RecvResult.data [0, 0, 0, 5]] ∧
      recv_cmd_loop [RecvResult.data []]
        (recv_upd (demo_sys 5 3 1 []) [] 9 0 ([0, 0, 0, 0, 0, 0, 0, 0], []) []) = none ∧
      recv_cmd_loop [RecvResult.data [], RecvResult.error]
        (recv_upd (demo_sys 5 3 1 []) [] 9 0 ([0, 0, 0, 0, 0, 0, 0, 0], []) []) = some c4 ∧
      c4.tr = [] ++
        [Event.recv 4 0 9 0, Event.recv 4 0 9 (-1),
         Event.show_socket_error_reason ErrSite.recv_cmd 4] ∧
      c4.s.conn_error = 1 ∧ c4.s.to_recv = 9 ∧
      c4.s.actuators_buff = [0, 0, 0, 0, 0, 0, 0, 0] ∧ c4.s.stray = [] :=
  ⟨⟨by decide, by decide, by decide⟩, rfl,
    recv_zero_is_retried [0, 1] [[], [0, 0, 0], [0, 0, 0, 5]] []
      (recv_upd (demo_sys 5 3 1 []) [] 9 0 ([0, 0, 0, 0, 0, 0, 0, 0], []) [])
      (by decide) (by decide) (by decide)⟩

/-! ## The lifecycle flags -/

theorem some_flags (x c' : Sys) (b : Nat) (h : some x = some c') (hx : x.w.evg_bits = b) :
    c'.w.evg_bits = b := by
  cases h
  exact hx

theorem recv_cmd_loop_flags (rs : List RecvResult) :
    ∀ (c c' : Sys), recv_cmd_loop rs c = some c' → c'.w.evg_bits = c.w.evg_bits := by
  induction rs with
  | nil =>
    intro c c' h
    by_cases hz : c.s.to_recv > 0
    · simp [recv_cmd_loop, hz] at h
    · simp only [recv_cmd_loop, hz, if_false, Option.some.injEq] at h
      rw [← h]
  | cons r rest ih =>
    intro c c' h
    by_cases hz : c.s.to_recv > 0
    · rw [recv_cmd_loop] at h
      simp only [hz, if_true] at h
      split_ifs at h with h1 h2
      · have h3 := ih _ _ h
        exact h3
      · exact some_flags _ _ _ h rfl
      · have h3 := ih _ _ h
        exact h3
    · rw [recv_cmd_loop] at h
      simp only [hz, if_false, Option.some.injEq] at h
      rw [← h]

theorem case_recv_cmd_flags (c c' : Sys) (h : case_recv_cmd c = some c') :
    c'.w.evg_bits = c.w.evg_bits := by
  unfold case_recv_cmd at h
  split at h
  · exact Option.noConfusion h
  · rename_i c1 hc1
    have h1 := recv_cmd_loop_flags _ _ _ hc1
    simp only [emit] at h
    split_ifs at h <;> exact some_flags _ _ _ h h1

theorem send_image_loop_flags (n : Nat) :
    ∀ c : Sys, (send_image_loop n c).w.evg_bits = c.w.evg_bits := by
  induction n with
  | zero =>
    intro c
    rfl
  | succ n ih =>
    intro c
    rw [send_image_loop]
    simp only
    split_ifs
    · rfl
    · rw [ih]
      rfl

theorem send_image_remainder_flags (c : Sys) :
    (send_image_remainder c).w.evg_bits = c.w.evg_bits := by
  unfold send_image_remainder
  simp only
  split_ifs <;> rfl

theorem send_image_finish_flags (c : Sys) :
    (send_image_finish c).w.evg_bits = c.w.evg_bits := by
  unfold send_image_finish
  simp only
  split_ifs <;> rfl

theorem case_send_image_flags (c : Sys) : (case_send_image c).w.evg_bits = c.w.evg_bits := by
  unfold case_send_image
  simp only
  split_ifs
  · rfl
  · rw [send_image_finish_flags, send_image_remainder_flags, send_image_loop_flags]
    rfl

theorem case_send_sensors_flags (U : Nat) (c : Sys) :
    (case_send_sensors U c).w.evg_bits = c.w.evg_bits := by
  unfold case_send_sensors
  simp only
  split_ifs <;> rfl

theorem case_send_empty_flags (c : Sys) : (case_send_empty c).w.evg_bits = c.w.evg_bits := by
  unfold case_send_empty
  simp only
  split_ifs <;> rfl

theorem case_listen_flags (c : Sys) : (case_listen c).w.evg_bits = c.w.evg_bits := by
  unfold case_listen
  simp only
  split_ifs <;> rfl

theorem case_accept_flags (c : Sys) : (case_accept c).w.evg_bits = c.w.evg_bits := by
  unfold case_accept
  simp only
  split_ifs <;> rfl

theorem check_disconnected_flags (c : Sys) :
    (check_disconnected c).w.evg_bits = c.w.evg_bits := by
  unfold check_disconnected
  split_ifs <;> rfl

theorem dispatch_flags (U : Nat) (c c' : Sys) (h : dispatch U c = some c') :
    c'.w.evg_bits = c.w.evg_bits := by
  unfold dispatch at h
  split at h
  · unfold case_wait_connect at h
    split_ifs at h
    simp only [Option.some.injEq] at h
    rw [← h]
    rfl
  · simp only [Option.some.injEq] at h
    rw [← h, case_listen_flags]
  · simp only [Option.some.injEq] at h
    rw [← h, case_accept_flags]
  · exact case_recv_cmd_flags _ _ h
  · simp only [Option.some.injEq] at h
    rw [← h, case_send_image_flags]
  · simp only [Option.some.injEq] at h
    rw [← h, case_send_sensors_flags]
  · simp only [Option.some.injEq] at h
    rw [← h, case_send_empty_flags]
  · simp only [Option.some.injEq] at h
    rw [← h]

theorem socket_task_iter_flags (U : Nat) (c c' : Sys) (h : socket_task_iter U c = some c') :
    c'.w.evg_bits = c.w.evg_bits := by
  unfold socket_task_iter at h
  split at h
  · exact Option.noConfusion h
  · rename_i c1 hc1
    simp only [Option.some.injEq] at h
    rw [← h]
    exact (dispatch_flags U _ _ hc1).trans (check_disconnected_flags c)

theorem socket_task_run_flags_same (U : Nat) (n : Nat) :
    ∀ (c c' : Sys), socket_task_run U n c = some c' → c'.w.evg_bits = c.w.evg_bits := by
  induction n with
  | zero =>
    intro c c' h
    simp only [socket_task_run, Option.some.injEq] at h
    rw [← h]
  | succ n ih =>
    intro c c' h
    rw [socket_task_run] at h
    split at h
    · exact Option.noConfusion h
    · rename_i c1 hc1
      exact (ih _ _ h).trans (socket_task_iter_flags U _ _ hc1)

theorem testBit_or_one (b i : Nat) : (b ||| 1).testBit i = (b.testBit i || decide (i = 0)) := by
  rw [Nat.testBit_or]
  have h : (1 : Nat) = 2 ^ 0 := rfl
  rw [h, Nat.testBit_two_pow]
  simp [eq_comm]

theorem testBit_or_two (b i : Nat) : (b ||| 2).testBit i = (b.testBit i || decide (i = 1)) := by
  rw [Nat.testBit_or]
  have h : (2 : Nat) = 2 ^ 1 := rfl
  rw [h, Nat.testBit_two_pow]
  simp [eq_comm]

theorem testBit_or_four (b i : Nat) : (b ||| 4).testBit i = (b.testBit i || decide (i = 2)) := by
  rw [Nat.testBit_or]
  have h : (4 : Nat) = 2 ^ 2 := rfl
  rw [h, Nat.testBit_two_pow]
  simp [eq_comm]

/-- C15.  The task only reads the lifecycle flags: whatever the number of
iterations, the event group holds the same bits after them as before (the wait on
Connected does not clear it).  Each setter raises exactly its own flag: bit 0 for
`socket_set_event_connected`, bit 1 for `socket_set_event_disconnected`, bit 2 for
`socket_set_event_data_ready`, every other bit being left as it was. -/
theorem flags_only_read (U : Nat) (n : Nat) (c c' : Sys)
    (h : socket_task_run U n c = some c') :
    c'.w.evg_bits = c.w.evg_bits ∧
    (∀ (w : World) (i : Nat),
      (socket_set_event_connected w).evg_bits.testBit i
        = (w.evg_bits.testBit i || decide (i = 0)) ∧
      (socket_set_event_disconnected w).evg_bits.testBit i
        = (w.evg_bits.testBit i || decide (i = 1)) ∧
      (socket_set_event_data_ready w).evg_bits.testBit i
        = (w.evg_bits.testBit i || decide (i = 2))) ∧
    CONNECTED_BIT = 2 ^ 0 ∧ DISCONNECTED_BIT = 2 ^ 1 ∧ DATA_READY_BIT = 2 ^ 2 :=
  ⟨socket_task_run_flags_same U n c c' h,
   fun _ i => ⟨testBit_or_one _ i, testBit_or_two _ i, testBit_or_four _ i⟩, rfl, rfl, rfl⟩

/-- Witness of `flags_only_read`: three iterations from RECV_CMD with the command
`demo_cmd 3`. -/
theorem flags_only_read_witness :
    ∃ c' : Sys,
      socket_task_run 5 3 (demo_sys 5 3 1 ((demo_frags 3).map RecvResult.data)) = some c' ∧
      (c'.w.evg_bits = (demo_sys 5 3 1 ((demo_frags 3).map RecvResult.data)).w.evg_bits ∧
      (∀ (w : World) (i : Nat),
        (socket_set_event_connected w).evg_bits.testBit i
          = (w.evg_bits.testBit i || decide (i = 0)) ∧
        (socket_set_event_disconnected w).evg_bits.testBit i
          = (w.evg_bits.testBit i || decide (i = 1)) ∧
        (socket_set_event_data_ready w).evg_bits.testBit i
          = (w.evg_bits.testBit i || decide (i = 2))) ∧
      CONNECTED_BIT = 2 ^ 0 ∧ DISCONNECTED_BIT = 2 ^ 1 ∧ DATA_READY_BIT = 2 ^ 2) :=
  ⟨_, rfl, flags_only_read 5 3 (demo_sys 5 3 1 ((demo_frags 3).map RecvResult.data)) _ rfl⟩

/-! ## Failing sends -/

theorem send_image_loop_fail (a : Nat) :
    ∀ (m : Nat) (c : Sys),
      (∀ k, k < a → 0 ≤ c.w.send_ret (c.w.n_send + k) ∧ c.w.send_ret (c.w.n_send + k) ≤ 4092) →
      c.w.send_ret (c.w.n_send + a) < 0 → -32768 ≤ c.w.send_ret (c.w.n_send + a) →
      c.s.packet_id + a ≤ 1000 →
      send_image_loop (a + (m + 1)) c = image_loop_failed c a := by
  induction a with
  | zero =>
    intro m c _ hneg hge _
    simp only [Nat.add_zero] at hneg hge
    have h16 : to_int16 (c.w.send_ret c.w.n_send) = c.w.send_ret c.w.n_send :=
      to_int16_small _ hge (by omega)
    have h32a : to_uint32 ((SPI_PACKET_MAX_SIZE : Int) * (c.s.packet_id : Int))
        = SPI_PACKET_MAX_SIZE * c.s.packet_id := by
      simp only [SPI_PACKET_MAX_SIZE]
      rw [to_uint32_small _ (by omega) (by omega)]
      omega
    rw [Nat.zero_add, send_image_loop]
    simp only [do_send, h16, hneg, if_true, send_data, h32a, emit, image_loop_failed,
      image_chunk_events, Nat.add_zero, List.nil_append, List.append_assoc, List.singleton_append]
  | succ a ih =>
    intro m c hs hneg hge hp
    have h0 := hs 0 (Nat.succ_pos a)
    simp only [Nat.add_zero] at h0
    have h16 : to_int16 (c.w.send_ret c.w.n_send) = c.w.send_ret c.w.n_send :=
      to_int16_small _ (by omega) (by omega)
    have hnn : ¬ (c.w.send_ret c.w.n_send < 0) := not_lt.mpr h0.1
    have h32a : to_uint32 ((SPI_PACKET_MAX_SIZE : Int) * (c.s.packet_id : Int))
        = SPI_PACKET_MAX_SIZE * c.s.packet_id := by
      simp only [SPI_PACKET_MAX_SIZE]
      rw [to_uint32_small _ (by omega) (by omega)]
      omega
    have h32b : to_uint32 ((c.s.packet_id : Int) + 1) = c.s.packet_id + 1 := by
      rw [to_uint32_small _ (by omega) (by omega)]
      omega
    have hih := ih m (image_loop_upd c 1 (c.w.send_ret c.w.n_send))
      (by
        intro k hk
        have hk1 := hs (k + 1) (by omega)
        simp only [image_loop_upd]
        rw [Nat.add_assoc, Nat.add_comm 1 k]
        exact hk1)
      (by
        simp only [image_loop_upd]
        rw [Nat.add_assoc, Nat.add_comm 1 a]
        exact hneg)
      (by
        simp only [image_loop_upd]
        rw [Nat.add_assoc, Nat.add_comm 1 a]
        exact hge)
      (by simp only [image_loop_upd]; omega)
    have e : a + 1 + (m + 1) = (a + (m + 1)) + 1 := by omega
    rw [e, send_image_loop]
    simp only [do_send, h16, hnn, if_false, send_data, h32a, h32b]
    show send_image_loop (a + (m + 1)) (image_loop_upd c 1 (c.w.send_ret c.w.n_send)) = _
    rw [hih]
    simp only [image_loop_failed, image_loop_upd, image_chunk_events, List.append_assoc,
      List.singleton_append, List.cons_append, List.nil_append, Nat.add_assoc, Nat.add_comm 1 a]

theorem image_chunk_events_no_close (fd : Int) (img : List Nat) (ret : Nat → Int) (n : Nat) :
    ∀ (p j : Nat), ∀ e ∈ image_chunk_events fd img ret n p j, Event.is_close e = false := by
  induction n with
  | zero =>
    intro p j e he
    simp [image_chunk_events] at he
  | succ n ih =>
    intro p j e he
    simp only [image_chunk_events, List.mem_cons] at he
    rcases he with h | h
    · subst h
      rfl
    · exact ih _ _ e h

theorem sends_of_image_chunk_events_length (fd : Int) (img : List Nat) (ret : Nat → Int)
    (n : Nat) : ∀ (p j : Nat), (sends_of (image_chunk_events fd img ret n p j)).length = n := by
  induction n with
  | zero =>
    intro p j
    rfl
  | succ n ih =>
    intro p j
    have h : sends_of (image_chunk_events fd img ret (n + 1) p j) =
        (Buf.img, SPI_PACKET_MAX_SIZE * p, SPI_PACKET_MAX_SIZE) ::
          sends_of (image_chunk_events fd img ret n (p + 1) (j + 1)) := rfl
    rw [h, List.length_cons, ih]

/-- State 4 when the header `send` fails. -/
theorem image_header_failure (U : Nat) (c : Sys) (hst : c.s.conn_state = 4)
    (hbits : c.w.evg_bits &&& DISCONNECTED_BIT = 0)
    (hfail : c.w.send_ret (c.w.n_send + 0) < 0) :
    ∃ c', socket_task_iter U c = some c' ∧ send_failure_outcome c c' 0 := by
  simp only [Nat.add_zero] at hfail
  refine ⟨_, iter_send_image U c hst hbits, ?_⟩
  refine ⟨[Event.rgb_led2_gpio_set 1 0 1, Event.spi_get_data_ptr, Event.rgb_led2_gpio_set 1 1 1,
      Event.rgb_led2_gpio_set 1 1 0],
    [Event.show_socket_error_reason ErrSite.send_image_header c.s.client_sock,
      Event.vTaskDelay 10], Buf.header, 0, 1, [1], ?_, rfl, ?_, ?_, ?_, ?_, ?_⟩
  · simp only [case_send_image, send_image_prepare, emit, do_spi_get_data_ptr, do_send, hfail,
      if_true, send_data, List.drop_zero, List.take_succ_cons, List.take_zero, Nat.add_zero,
      List.append_assoc, List.cons_append, List.nil_append]
  · intro e he
    simp only [List.mem_cons, List.mem_singleton, List.not_mem_nil, or_false] at he
    rcases he with h | h <;> subst h <;> exact ⟨rfl, rfl⟩
  · intro e he
    simp only [List.cons_append, List.nil_append, List.mem_cons, List.mem_singleton,
      List.not_mem_nil, or_false] at he
    rcases he with h | h | h | h | h | h <;> subst h <;> rfl
  · simp only [case_send_image, send_image_prepare, emit, do_spi_get_data_ptr, do_send, hfail,
      if_true]
  · simp only [case_send_image, send_image_prepare, emit, do_spi_get_data_ptr, do_send, hfail,
      if_true]
  · simp only [case_send_image, send_image_prepare, emit, do_spi_get_data_ptr, do_send, hfail,
      if_true, Nat.add_zero]

/-- State 4 when the `send` of full chunk `a` fails, the header and the chunks
before it having been sent. -/
theorem image_chunk_failure (U : Nat) (c : Sys) (a : Nat) (hst : c.s.conn_state = 4)
    (hbits : c.w.evg_bits &&& DISCONNECTED_BIT = 0) (ha : a < 9)
    (hok : ∀ k, k < a + 1 → 0 ≤ c.w.send_ret (c.w.n_send + k) ∧
      c.w.send_ret (c.w.n_send + k) ≤ 4092)
    (hfail : c.w.send_ret (c.w.n_send + (a + 1)) < 0)
    (hrange : -32768 ≤ c.w.send_ret (c.w.n_send + (a + 1))) :
    ∃ c', socket_task_iter U c = some c' ∧ send_failure_outcome c c' (a + 1) := by
  have h0 := hok 0 (by omega)
  simp only [Nat.add_zero] at h0
  have e9 : 9 = a + ((8 - a) + 1) := by omega
  have hloop : send_image_loop 9 (image_begun c) = image_loop_failed (image_begun c) a := by
    rw [e9]
    apply send_image_loop_fail a (8 - a) (image_begun c)
    · intro k hk
      have hk1 := hok (k + 1) (by omega)
      simp only [image_begun]
      rw [Nat.add_assoc, Nat.add_comm 1 k]
      exact hk1
    · simp only [image_begun]
      rw [Nat.add_assoc, Nat.add_comm 1 a]
      exact hfail
    · simp only [image_begun]
      rw [Nat.add_assoc, Nat.add_comm 1 a]
      exact hrange
    · simp only [image_begun]
      omega
  have hcase : case_send_image c =
      send_image_finish (send_image_remainder (image_loop_failed (image_begun c) a)) := by
    rw [case_send_image_begun c h0.1, hloop]
  refine ⟨_, iter_send_image U c hst hbits, ?_⟩
  rw [hcase]
  refine ⟨[Event.rgb_led2_gpio_set 1 0 1, Event.spi_get_data_ptr, Event.rgb_led2_gpio_set 1 1 1,
      Event.rgb_led2_gpio_set 1 1 0,
      Event.send c.s.client_sock Buf.header 0 1 [1] (c.w.send_ret c.w.n_send)] ++
      image_chunk_events c.s.client_sock (c.w.spi_data c.w.n_spi) c.w.send_ret a 0
        (c.w.n_send + 1),
    [Event.show_socket_error_reason ErrSite.send_data c.s.client_sock,
      Event.rgb_led2_gpio_set 1 1 1, Event.vTaskDelay 10], Buf.img,
    SPI_PACKET_MAX_SIZE * (0 + a), SPI_PACKET_MAX_SIZE,
    (((c.w.spi_data c.w.n_spi).drop (SPI_PACKET_MAX_SIZE * (0 + a))).take SPI_PACKET_MAX_SIZE),
    ?_, ?_, ?_, ?_, ?_, ?_, ?_⟩
  · simp only [send_image_finish, send_image_remainder, image_loop_failed, image_begun, emit,
      one_ne_zero, and_false, if_false, List.append_assoc, List.cons_append, List.nil_append,
      Nat.add_assoc, Nat.add_comm 1 a]
  · rw [sends_of_append, List.length_append, sends_of_image_chunk_events_length]
    simp only [sends_of, List.filterMap, Event.send_args, List.length_cons, List.length_nil]
    omega
  · intro e he
    simp only [List.mem_cons, List.mem_singleton, List.not_mem_nil, or_false] at he
    rcases he with h | h | h <;> subst h <;> exact ⟨rfl, rfl⟩
  · intro e he
    rw [List.append_assoc] at he
    rcases List.mem_append.mp he with h | h
    · simp only [List.mem_cons, List.mem_singleton, List.not_mem_nil, or_false] at h
      rcases h with h | h | h | h | h <;> subst h <;> rfl
    · rcases List.mem_append.mp h with h | h
      · exact image_chunk_events_no_close _ _ _ _ _ _ e h
      · simp only [List.mem_cons, List.mem_singleton, List.not_mem_nil, or_false] at h
        rcases h with h | h | h <;> subst h <;> rfl
  · simp only [send_image_finish, send_image_remainder, image_loop_failed, image_begun, emit,
      one_ne_zero, and_false, if_false]
  · simp only [send_image_finish, send_image_remainder, image_loop_failed, image_begun, emit,
      one_ne_zero, and_false, if_false]
  · simp only [send_image_finish, send_image_remainder, image_loop_failed, image_begun, emit,
      one_ne_zero, and_false, if_false]
    omega

/-- State 4 when the `send` of the last segment fails, the header and the 9 full
chunks having been sent. -/
theorem image_remainder_failure (U : Nat) (c : Sys) (hst : c.s.conn_state = 4)
    (hbits : c.w.evg_bits &&& DISCONNECTED_BIT = 0) (herr : c.s.conn_error = 0)
    (hok : ∀ k, k < 10 → 0 ≤ c.w.send_ret (c.w.n_send + k) ∧
      c.w.send_ret (c.w.n_send + k) ≤ 4092)
    (hfail : c.w.send_ret (c.w.n_send + 10) < 0)
    (hrange : -32768 ≤ c.w.send_ret (c.w.n_send + 10)) :
    ∃ c', socket_task_iter U c = some c' ∧ send_failure_outcome c c' 10 := by
  have h0 := hok 0 (by omega)
  simp only [Nat.add_zero] at h0
  have h16 : to_int16 (c.w.send_ret (c.w.n_send + 10)) = c.w.send_ret (c.w.n_send + 10) :=
    to_int16_small _ hrange (by omega)
  obtain ⟨l, hl⟩ := send_image_loop_ok 9 (image_begun c)
    (by
      intro k hk
      have hk1 := hok (k + 1) (by omega)
      simp only [image_begun]
      rw [Nat.add_assoc, Nat.add_comm 1 k]
      exact hk1)
    (by simp [image_begun])
  have h32 : to_uint32 ((SPI_PACKET_MAX_SIZE : Int) * ((0 + 9 : Nat) : Int)) = 36828 := by decide
  have hcase : case_send_image c =
      send_image_finish (send_image_remainder (image_loop_upd (image_begun c) 9 l)) := by
    rw [case_send_image_begun c h0.1, hl]
  refine ⟨_, iter_send_image U c hst hbits, ?_⟩
  rw [hcase]
  refine ⟨[Event.rgb_led2_gpio_set 1 0 1, Event.spi_get_data_ptr, Event.rgb_led2_gpio_set 1 1 1,
      Event.rgb_led2_gpio_set 1 1 0,
      Event.send c.s.client_sock Buf.header 0 1 [1] (c.w.send_ret c.w.n_send)] ++
      image_chunk_events c.s.client_sock (c.w.spi_data c.w.n_spi) c.w.send_ret 9 0
        (c.w.n_send + 1),
    [Event.show_socket_error_reason ErrSite.send_data c.s.client_sock,
      Event.rgb_led2_gpio_set 1 1 1, Event.vTaskDelay 10], Buf.img, 36828, 1572,
    (((c.w.spi_data c.w.n_spi).drop 36828).take 1572),
    ?_, ?_, ?_, ?_, ?_, ?_, ?_⟩
  · simp only [send_image_finish, send_image_remainder, image_loop_upd, image_begun, emit, herr,
      do_send, gt_iff_lt, Nat.lt_add_one, Nat.ofNat_pos, and_self, if_true, h32, Nat.add_assoc,
      Nat.reduceAdd, h16, hfail, send_data, one_ne_zero, if_false, List.append_assoc,
      List.cons_append, List.nil_append]
  · rw [sends_of_append, List.length_append, sends_of_image_chunk_events_length]
    rfl
  · intro e he
    simp only [List.mem_cons, List.mem_singleton, List.not_mem_nil, or_false] at he
    rcases he with h | h | h <;> subst h <;> exact ⟨rfl, rfl⟩
  · intro e he
    rw [List.append_assoc] at he
    rcases List.mem_append.mp he with h | h
    · simp only [List.mem_cons, List.mem_singleton, List.not_mem_nil, or_false] at h
      rcases h with h | h | h | h | h <;> subst h <;> rfl
    · rcases List.mem_append.mp h with h | h
      · exact image_chunk_events_no_close _ _ _ _ _ _ e h
      · simp only [List.mem_cons, List.mem_singleton, List.not_mem_nil, or_false] at h
        rcases h with h | h | h <;> subst h <;> rfl
  · simp only [send_image_finish, send_image_remainder, image_loop_upd, image_begun, emit, herr,
      do_send, gt_iff_lt, Nat.lt_add_one, Nat.ofNat_pos, and_self, if_true, h16, hfail,
      one_ne_zero, if_false]
  · simp only [send_image_finish, send_image_remainder, image_loop_upd, image_begun, emit, herr,
      do_send, gt_iff_lt, Nat.lt_add_one, Nat.ofNat_pos, and_self, if_true, h16, hfail,
      one_ne_zero, if_false]
  · simp only [send_image_finish, send_image_remainder, image_loop_upd, image_begun, emit, herr,
      do_send, gt_iff_lt, Nat.lt_add_one, Nat.ofNat_pos, and_self, if_true, h16, hfail,
      one_ne_zero, if_false, Nat.add_assoc, Nat.reduceAdd]

/-- State 5 when the header `send` fails. -/
theorem sensors_header_failure (U : Nat) (c : Sys) (hst : c.s.conn_state = 5)
    (hbits : c.w.evg_bits &&& DISCONNECTED_BIT = 0)
    (hfail : c.w.send_ret (c.w.n_send + 0) < 0) :
    ∃ c', socket_task_iter U c = some c' ∧ send_failure_outcome c c' 0 := by
  simp only [Nat.add_zero] at hfail
  refine ⟨_, iter_send_sensors U c hst hbits, ?_⟩
  refine ⟨[Event.rgb_led2_gpio_set 0 1 1, Event.uart_get_data_ptr,
      Event.rgb_led2_gpio_set 1 1 1],
    [Event.show_socket_error_reason ErrSite.send_sensor_header c.s.client_sock,
      Event.vTaskDelay 10], Buf.header, 0, 1, [2], ?_, rfl, ?_, ?_, ?_, ?_, ?_⟩
  · simp only [case_send_sensors, emit, do_uart_get_data_ptr, do_send, hfail,
      if_true, send_data, List.drop_zero, List.take_succ_cons, List.take_zero, Nat.add_zero,
      List.append_assoc, List.cons_append, List.nil_append]
  · intro e he
    simp only [List.mem_cons, List.mem_singleton, List.not_mem_nil, or_false] at he
    rcases he with h | h <;> subst h <;> exact ⟨rfl, rfl⟩
  · intro e he
    simp only [List.cons_append, List.nil_append, List.mem_cons, List.mem_singleton,
      List.not_mem_nil, or_false] at he
    rcases he with h | h | h | h | h <;> subst h <;> rfl
  · simp only [case_send_sensors, emit, do_uart_get_data_ptr, do_send, hfail, if_true]
  · simp only [case_send_sensors, emit, do_uart_get_data_ptr, do_send, hfail, if_true]
  · simp only [case_send_sensors, emit, do_uart_get_data_ptr, do_send, hfail, if_true,
      Nat.add_zero]

/-- State 5 when the `send` of the sensor frame fails, the header having been
sent. -/
theorem sensors_frame_failure (U : Nat) (c : Sys) (hst : c.s.conn_state = 5)
    (hbits : c.w.evg_bits &&& DISCONNECTED_BIT = 0)
    (hok : 0 ≤ c.w.send_ret (c.w.n_send + 0))
    (hfail : c.w.send_ret (c.w.n_send + 1) < 0) :
    ∃ c', socket_task_iter U c = some c' ∧ send_failure_outcome c c' 1 := by
  simp only [Nat.add_zero] at hok
  have hnn : ¬ (c.w.send_ret c.w.n_send < 0) := not_lt.mpr hok
  refine ⟨_, iter_send_sensors U c hst hbits, ?_⟩
  refine ⟨[Event.rgb_led2_gpio_set 0 1 1, Event.uart_get_data_ptr,
      Event.rgb_led2_gpio_set 1 1 1,
      Event.send c.s.client_sock Buf.header 0 1 [2] (c.w.send_ret c.w.n_send)],
    [Event.show_socket_error_reason ErrSite.send_sensor_data c.s.client_sock,
      Event.vTaskDelay 10], Buf.sensors, 0, U,
    (((c.w.uart_data c.w.n_uart).drop 0).take U), ?_, rfl, ?_, ?_, ?_, ?_, ?_⟩
  · simp only [case_send_sensors, emit, do_uart_get_data_ptr, do_send, hfail, hnn, if_false,
      if_true, send_data, List.drop_zero, List.take_succ_cons, List.take_zero,
      List.append_assoc, List.cons_append, List.nil_append]
  · intro e he
    simp only [List.mem_cons, List.mem_singleton, List.not_mem_nil, or_false] at he
    rcases he with h | h <;> subst h <;> exact ⟨rfl, rfl⟩
  · intro e he
    simp only [List.cons_append, List.nil_append, List.mem_cons, List.mem_singleton,
      List.not_mem_nil, or_false] at he
    rcases he with h | h | h | h | h | h <;> subst h <;> rfl
  · simp only [case_send_sensors, emit, do_uart_get_data_ptr, do_send, hfail, hnn, if_false,
      if_true]
  · simp only [case_send_sensors, emit, do_uart_get_data_ptr, do_send, hfail, hnn, if_false,
      if_true]
  · simp only [case_send_sensors, emit, do_uart_get_data_ptr, do_send, hfail, hnn, if_false,
      if_true, Nat.add_assoc, Nat.reduceAdd]

/-- State 6 when the header `send` fails. -/
theorem empty_header_failure (U : Nat) (c : Sys) (hst : c.s.conn_state = 6)
    (hbits : c.w.evg_bits &&& DISCONNECTED_BIT = 0)
    (hfail : c.w.send_ret (c.w.n_send + 0) < 0) :
    ∃ c', socket_task_iter U c = some c' ∧ send_failure_outcome c c' 0 := by
  simp only [Nat.add_zero] at hfail
  refine ⟨_, iter_send_empty U c hst hbits, ?_⟩
  refine ⟨[],
    [Event.show_socket_error_reason ErrSite.send_empty_header c.s.client_sock,
      Event.vTaskDelay 10], Buf.header, 0, 1, [4], ?_, rfl, ?_, ?_, ?_, ?_, ?_⟩
  · simp only [case_send_empty, emit, do_send, hfail,
      if_true, send_data, List.drop_zero, List.take_succ_cons, List.take_zero, Nat.add_zero,
      List.append_assoc, List.cons_append, List.nil_append, List.append_nil]
  · intro e he
    simp only [List.mem_cons, List.mem_singleton, List.not_mem_nil, or_false] at he
    rcases he with h | h <;> subst h <;> exact ⟨rfl, rfl⟩
  · intro e he
    simp only [List.cons_append, List.nil_append, List.mem_cons, List.mem_singleton,
      List.not_mem_nil, or_false] at he
    rcases he with h | h <;> subst h <;> rfl
  · simp only [case_send_empty, emit, do_send, hfail, if_true]
  · simp only [case_send_empty, emit, do_send, hfail, if_true]
  · simp only [case_send_empty, emit, do_send, hfail, if_true, Nat.add_zero]

/-- C11.  In SEND_IMAGE, SEND_SENSORS and SEND_EMPTY (states 4, 5, 6), if the
`send` number `j` of the iteration (header, image chunk, last segment or sensor
frame) returns a negative result, the sends before it having succeeded: no `send`
and no frame-source call follows the failing `send`, exactly `j + 1` sends were
made, no `close` is called, the next state is ACCEPT (2) and `server_sock` is
unchanged. -/
theorem send_error_goes_to_accept (U : Nat) (c : Sys) (j : Nat)
    (hst : c.s.conn_state = 4 ∨ c.s.conn_state = 5 ∨ c.s.conn_state = 6)
    (hbits : c.w.evg_bits &&& DISCONNECTED_BIT = 0) (herr : c.s.conn_error = 0)
    (hj : j < sends_in_state c.s.conn_state)
    (hok : ∀ k, k < j → 0 ≤ c.w.send_ret (c.w.n_send + k) ∧
      c.w.send_ret (c.w.n_send + k) ≤ 4092)
    (hfail : c.w.send_ret (c.w.n_send + j) < 0)
    (hrange : -32768 ≤ c.w.send_ret (c.w.n_send + j)) :
    ∃ (c' : Sys) (pre post : List Event) (src : Buf) (off len : Nat) (data : List Nat),
      socket_task_iter U c = some c' ∧
      c'.tr = c.tr ++ pre ++
        Event.send c.s.client_sock src off len data (c.w.send_ret (c.w.n_send + j)) :: post ∧
      (sends_of pre).length = j ∧
      (∀ e ∈ post, Event.is_send e = false ∧ Event.is_frame_source e = false) ∧
      (∀ e ∈ pre ++ post, Event.is_close e = false) ∧
      c'.s.conn_state = 2 ∧
      c'.s.server_sock = c.s.server_sock ∧
      c'.w.n_send = c.w.n_send + j + 1 := by
  have key : ∃ c', socket_task_iter U c = some c' ∧ send_failure_outcome c c' j := by
    rcases hst with h4 | h5 | h6
    · simp only [sends_in_state, h4, if_true] at hj
      by_cases hj0 : j = 0
      · subst hj0
        exact image_header_failure U c h4 hbits hfail
      · by_cases hj10 : j = 10
        · subst hj10
          exact image_remainder_failure U c h4 hbits herr hok hfail hrange
        · obtain ⟨a, rfl⟩ : ∃ a, j = a + 1 := ⟨j - 1, by omega⟩
          exact image_chunk_failure U c a h4 hbits (by omega) hok hfail hrange
    · simp only [sends_in_state, h5] at hj
      have hj2 : j < 2 := by simpa using hj
      by_cases hj0 : j = 0
      · subst hj0
        exact sensors_header_failure U c h5 hbits hfail
      · have hj1 : j = 1 := by omega
        subst hj1
        exact sensors_frame_failure U c h5 hbits (hok 0 (by omega)).1 hfail
    · simp only [sends_in_state, h6] at hj
      have hj0 : j = 0 := by
        have : j < 1 := by simpa using hj
        omega
      subst hj0
      exact empty_header_failure U c h6 hbits hfail
  obtain ⟨c', hiter, pre, post, src, off, len, data, h⟩ := key
  exact ⟨c', pre, post, src, off, len, data, hiter, h⟩

/-- Witness of `send_error_goes_to_accept`: SEND_IMAGE in a world whose first three
sends succeed and whose fourth (full chunk 2) returns -1. -/
theorem send_error_goes_to_accept_witness :
    ∃ (c' : Sys) (pre post : List Event) (src : Buf) (off len : Nat) (data : List Nat),
      socket_task_iter 5
        (test_sys (test_world 3 0 0 4 (fun n => if n < 3 then 4092 else -1) 1 []) 4) = some c' ∧
      c'.tr = [] ++ pre ++ Event.send 4 src off len data (-1) :: post ∧
      (sends_of pre).length = 3 ∧
      (∀ e ∈ post, Event.is_send e = false ∧ Event.is_frame_source e = false) ∧
      (∀ e ∈ pre ++ post, Event.is_close e = false) ∧
      c'.s.conn_state = 2 ∧
      c'.s.server_sock = 3 ∧
      c'.w.n_send = 0 + 3 + 1 :=
  send_error_goes_to_accept 5
    (test_sys (test_world 3 0 0 4 (fun n => if n < 3 then 4092 else -1) 1 []) 4) 3
    (Or.inl rfl) (by decide) rfl (by decide)
    (fun k hk => by
      show (0 : Int) ≤ (if 0 + k < 3 then 4092 else -1) ∧
        (if 0 + k < 3 then (4092 : Int) else -1) ≤ 4092
      simp [hk])
    (by decide) (by decide)

/-! ## Reconnecting -/

theorem both_flags_after_signals (w0 : World) :
    (socket_set_event_connected (socket_set_event_disconnected w0)).evg_bits &&& DISCONNECTED_BIT
        ≠ 0 ∧
    (socket_set_event_connected (socket_set_event_disconnected w0)).evg_bits &&& CONNECTED_BIT
        = CONNECTED_BIT := by
  constructor
  · show (w0.evg_bits ||| 2 ||| 1) &&& 2 ≠ 0
    rw [and_two_ne_zero_iff, testBit_or_one, testBit_or_two]
    simp
  · show (w0.evg_bits ||| 2 ||| 1) &&& 1 = 1
    rw [Nat.and_one_is_mod]
    simp

/-- With both flags raised every iteration is the same: close, wait, delay. -/
theorem run_both_flags (U : Nat) (n : Nat) :
    ∀ c : Sys, c.w.evg_bits &&& DISCONNECTED_BIT ≠ 0 →
      c.w.evg_bits &&& CONNECTED_BIT = CONNECTED_BIT →
      ∃ c', socket_task_run U n c = some c' ∧ c'.w = c.w ∧
        c'.s.server_sock = c.s.server_sock ∧ (0 < n → c'.s.conn_state = 1) ∧
        c'.tr = c.tr ++ (List.replicate n [Event.close c.s.server_sock,
          Event.xEventGroupWaitBits CONNECTED_BIT, Event.vTaskDelay 10]).flatten := by
  induction n with
  | zero =>
    intro c _ _
    exact ⟨c, rfl, rfl, rfl, fun h => absurd h (Nat.lt_irrefl 0), by simp⟩
  | succ n ih =>
    intro c hdis hcon
    obtain ⟨c', hrun, hw, hsock, hst, htr⟩ := ih
      { c with s := { c.s with conn_state := 1 },
               tr := c.tr ++ [Event.close c.s.server_sock,
                 Event.xEventGroupWaitBits CONNECTED_BIT, Event.vTaskDelay 10] } hdis hcon
    refine ⟨c', ?_, hw, hsock, ?_, ?_⟩
    · rw [socket_task_run, iter_disconnected U c hdis hcon]
      exact hrun
    · intro _
      by_cases hn : 0 < n
      · exact hst hn
      · have hn0 : n = 0 := by omega
        subst hn0
        simp only [socket_task_run, Option.some.injEq] at hrun
        rw [← hrun]
    · rw [htr]
      simp only [List.replicate_succ, List.flatten_cons, List.append_assoc]

/-- C14, as the code behaves.  After a Disconnected signal followed by a Connected
signal both flags are raised, and the task never lowers one: from every state and
for every number of iterations, each iteration closes `server_sock`, passes the
wait and leaves state 1 (LISTEN) to be reset at the top of the next one.  State 1
is never dispatched: no socket is created and ACCEPT (2) is never reached,
whatever `socket`, `bind` and `listen` would return. -/
theorem reconnect_never_listens (U : Nat) (n : Nat) (c : Sys) (w0 : World)
    (hw : c.w = socket_set_event_connected (socket_set_event_disconnected w0)) :
    ∃ c', socket_task_run U (n + 1) c = some c' ∧
      c'.s.conn_state = 1 ∧ c'.s.conn_state ≠ 2 ∧
      c'.s.server_sock = c.s.server_sock ∧ c'.w.n_socket = c.w.n_socket ∧
      c'.tr = c.tr ++ (List.replicate (n + 1) [Event.close c.s.server_sock,
        Event.xEventGroupWaitBits CONNECTED_BIT, Event.vTaskDelay 10]).flatten := by
  have hb := both_flags_after_signals w0
  rw [← hw] at hb
  obtain ⟨c', hrun, hw', hsock, hst, htr⟩ := run_both_flags U (n + 1) c hb.1 hb.2
  have h1 := hst (Nat.succ_pos n)
  exact ⟨c', hrun, h1, by rw [h1]; decide, hsock, by rw [hw'], htr⟩

/-- Witness of `reconnect_never_listens`: five iterations from RECV_CMD after the
two signals. -/
theorem reconnect_never_listens_witness :
    ∃ c', socket_task_run 5 (4 + 1)
        (test_sys (socket_set_event_connected (socket_set_event_disconnected
          (test_world 3 0 0 4 (fun _ => 1) 0 []))) 3) = some c' ∧
      c'.s.conn_state = 1 ∧ c'.s.conn_state ≠ 2 ∧
      c'.s.server_sock = 3 ∧ c'.w.n_socket = 0 ∧
      c'.tr = [] ++ (List.replicate (4 + 1) [Event.close 3,
        Event.xEventGroupWaitBits CONNECTED_BIT, Event.vTaskDelay 10]).flatten :=
  reconnect_never_listens 5 4
    (test_sys (socket_set_event_connected (socket_set_event_disconnected
      (test_world 3 0 0 4 (fun _ => 1) 0 []))) 3)
    (test_world 3 0 0 4 (fun _ => 1) 0 []) rfl

/-! ## Short counts of `send` -/

theorem accepted_bytes_append (a b : List Event) :
    accepted_bytes (a ++ b) = accepted_bytes a ++ accepted_bytes b := by
  simp [accepted_bytes]

theorem accepted_count_append (a b : List Event) :
    accepted_count (a ++ b) = accepted_count a + accepted_count b := by
  simp [accepted_count]

/-- The transport took no more bytes than the counts returned say. -/
theorem accepted_bytes_length_le (tr : List Event) :
    (accepted_bytes tr).length ≤ accepted_count tr := by
  induction tr with
  | nil => simp [accepted_bytes, accepted_count]
  | cons e es ih =>
    have h1 : accepted_bytes (e :: es) = Event.accepted e ++ accepted_bytes es := rfl
    have h2 : accepted_count (e :: es) = Event.accepted_count e + accepted_count es := by
      simp [accepted_count]
    rw [h1, h2, List.length_append]
    have h3 : (Event.accepted e).length ≤ Event.accepted_count e := by
      cases e <;> simp [Event.accepted, Event.accepted_count]
    omega

theorem accepted_eq_payload (tr : List Event)
    (h : ∀ e ∈ tr, Event.accepted e = Event.payload e) : accepted_bytes tr = sent_bytes tr := by
  induction tr with
  | nil => rfl
  | cons e es ih =>
    have h1 : accepted_bytes (e :: es) = Event.accepted e ++ accepted_bytes es := rfl
    have h2 : sent_bytes (e :: es) = Event.payload e ++ sent_bytes es := rfl
    rw [h1, h2, h e (List.mem_cons_self _ _), ih (fun x hx => h x (List.mem_cons_of_mem _ hx))]

theorem accepted_of_no_send (tr : List Event) (h : sends_of tr = []) :
    ∀ e ∈ tr, Event.accepted e = Event.payload e := by
  induction tr with
  | nil =>
    intro e he
    simp at he
  | cons x xs ih =>
    intro e he
    cases x <;> first
      | (exfalso; simp [sends_of, Event.send_args] at h; done)
      | (rcases List.mem_cons.mp he with h1 | h1
         · subst h1
           rfl
         · exact ih h e h1)

theorem image_chunk_events_full (fd : Int) (img : List Nat) (ret : Nat → Int) (n : Nat) :
    ∀ (p j : Nat), (∀ k, k < n → ret (j + k) = 4092) →
      ∀ e ∈ image_chunk_events fd img ret n p j, Event.accepted e = Event.payload e := by
  induction n with
  | zero =>
    intro p j _ e he
    simp [image_chunk_events] at he
  | succ n ih =>
    intro p j hr e he
    simp only [image_chunk_events, List.mem_cons] at he
    rcases he with h | h
    · subst h
      have h0 := hr 0 (Nat.succ_pos n)
      simp only [Nat.add_zero] at h0
      simp [Event.accepted, Event.payload, h0, List.take_take, SPI_PACKET_MAX_SIZE]
    · refine ih (p + 1) (j + 1) ?_ e h
      intro k hk
      have hk1 := hr (k + 1) (by omega)
      rw [Nat.add_assoc, Nat.add_comm 1 k]
      exact hk1

/-- C18, counterexample.  In `demo_world` every `send` returns 1, a count smaller
than the length requested of every chunk.  SEND_IMAGE still makes exactly one
`send` per chunk, each at the fixed offset of its chunk: no call offers the bytes
a short `send` left out again.  The counts returned add up to 11, so the transport
took at most 11 bytes, not the 38400 of the image. -/
theorem short_image_sends_not_retried :
    (∀ n, (demo_sys 5 4 1 []).w.send_ret n = 1) ∧
    (socket_task_iter 5 (demo_sys 5 4 1 [])).map (fun c => sends_of c.tr) = some
      [(Buf.header, 0, 1), (Buf.img, 0, 4092), (Buf.img, 4092, 4092), (Buf.img, 8184, 4092),
       (Buf.img, 12276, 4092), (Buf.img, 16368, 4092), (Buf.img, 20460, 4092),
       (Buf.img, 24552, 4092), (Buf.img, 28644, 4092), (Buf.img, 32736, 4092),
       (Buf.img, 36828, 1572)] ∧
    (socket_task_iter 5 (demo_sys 5 4 1 [])).map (fun c => accepted_count c.tr) = some 11 ∧
    (∀ c', socket_task_iter 5 (demo_sys 5 4 1 []) = some c' →
      (accepted_bytes c'.tr).length ≤ 11 ∧ (accepted_bytes c'.tr).length < MAX_BUFF_SIZE) := by
  have h2 : (socket_task_iter 5 (demo_sys 5 4 1 [])).map (fun c => accepted_count c.tr)
      = some 11 := by decide
  refine ⟨fun _ => rfl, by decide, h2, ?_⟩
  intro c' hc'
  rw [hc'] at h2
  simp only [Option.map_some', Option.some.injEq] at h2
  have h3 := accepted_bytes_length_le c'.tr
  rw [h2] at h3
  exact ⟨h3, lt_of_le_of_lt h3 (by decide)⟩

/-- C18, amended.  In SEND_IMAGE every chunk is handed to `send` exactly once, at
its fixed offset, whatever non-negative count each call returns: a count smaller
than the length requested is not followed by a retry.  The transport takes no more
bytes than the counts returned add up to; the bytes it takes are the tag and the
whole image when every `send` returns the length requested. -/
theorem image_chunks_sent_once (U : Nat) (c : Sys)
    (hst : c.s.conn_state = 4) (hbits : c.w.evg_bits &&& DISCONNECTED_BIT = 0)
    (herr : c.s.conn_error = 0)
    (hs : ∀ k, k < 11 → 0 ≤ c.w.send_ret (c.w.n_send + k) ∧
      c.w.send_ret (c.w.n_send + k) ≤ 4092)
    (himg : (c.w.spi_data c.w.n_spi).length = MAX_BUFF_SIZE) :
    ∃ (c' : Sys) (evs : List Event),
      socket_task_iter U c = some c' ∧ c'.tr = c.tr ++ evs ∧
      sends_of evs = (Buf.header, 0, 1) ::
        ((List.range 9).map (fun k => (Buf.img, 4092 * k, 4092)) ++ [(Buf.img, 36828, 1572)]) ∧
      (accepted_bytes evs).length ≤ accepted_count evs ∧
      (c.w.send_ret c.w.n_send = 1 → (∀ k, k < 9 → c.w.send_ret (c.w.n_send + 1 + k) = 4092) →
        c.w.send_ret (c.w.n_send + 10) = 1572 →
        accepted_bytes evs = 1 :: c.w.spi_data c.w.n_spi) := by
  obtain ⟨c', tl, hiter, htr, hsn, hsb⟩ := iter_send_image_summary U c hst hbits herr hs
  refine ⟨c', _, hiter, htr, ?_, accepted_bytes_length_le _, ?_⟩
  · rw [sends_of_append, hsn, sends_of_image_events, List.append_nil]
    rfl
  · intro h0 hch h10
    have hall : ∀ e ∈ image_events c.s.client_sock (c.w.spi_data c.w.n_spi) c.w.send_ret
        c.w.n_send ++ tl, Event.accepted e = Event.payload e := by
      intro e he
      rcases List.mem_append.mp he with h | h
      · unfold image_events at h
        rcases List.mem_append.mp h with h | h
        · rcases List.mem_append.mp h with h | h
          · simp only [List.mem_cons, List.mem_singleton, List.not_mem_nil, or_false] at h
            rcases h with h | h | h | h | h <;> subst h <;>
              first | rfl | simp [Event.accepted, Event.payload, h0]
          · exact image_chunk_events_full _ _ _ 9 0 _ hch e h
        · simp only [List.mem_cons, List.mem_singleton, List.not_mem_nil, or_false] at h
          rcases h with h | h <;> subst h <;>
            first | rfl | simp [Event.accepted, Event.payload, h10, List.take_take]
      · exact accepted_of_no_send tl hsn e h
    rw [accepted_eq_payload _ hall, sent_bytes_append, hsb, sent_bytes_image_events,
      List.append_nil, List.take_of_length_le (le_of_eq himg)]

/-- Witness of `image_chunks_sent_once`: SEND_IMAGE in a world where every `send`
returns the length requested. -/
theorem image_chunks_sent_once_witness :
    ∃ (c' : Sys) (evs : List Event),
      socket_task_iter 5 (test_sys (test_world 3 0 0 4
        (fun n => if n = 0 then 1 else if n < 10 then 4092 else 1572) 1 []) 4) = some c' ∧
      c'.tr = [] ++ evs ∧
      sends_of evs = (Buf.header, 0, 1) ::
        ((List.range 9).map (fun k => (Buf.img, 4092 * k, 4092)) ++ [(Buf.img, 36828, 1572)]) ∧
      (accepted_bytes evs).length ≤ accepted_count evs ∧
      ((if (0 : Nat) = 0 then (1 : Int) else if (0 : Nat) < 10 then 4092 else 1572) = 1 →
        (∀ k, k < 9 →
          (if 0 + 1 + k = 0 then (1 : Int) else if 0 + 1 + k < 10 then 4092 else 1572) = 4092) →
        (if 0 + 10 = 0 then (1 : Int) else if 0 + 10 < 10 then 4092 else 1572) = 1572 →
        accepted_bytes evs = 1 :: List.replicate 38400 7) :=
  image_chunks_sent_once 5 (test_sys (test_world 3 0 0 4
      (fun n => if n = 0 then 1 else if n < 10 then 4092 else 1572) 1 []) 4)
    rfl (by decide) rfl
    (fun k _ => by
      show (0 : Int) ≤ (if 0 + k = 0 then 1 else if 0 + k < 10 then 4092 else 1572) ∧
        (if 0 + k = 0 then (1 : Int) else if 0 + k < 10 then 4092 else 1572) ≤ 4092
      split_ifs <;> exact ⟨by decide, by decide⟩)
    (List.length_replicate _ _)

/-! ## Closing the listening socket -/

/-- C19, as the code behaves.  With `closes_ok none` telling whether every `close`
of a run names the listening socket open at that point: from the initial state
with the Disconnected flag raised the first iteration calls `close(0)` before any
socket was created; when `accept` fails twice the second iteration closes
descriptor 3 again, no socket having been created in between; both runs break the
rule.  A run with nothing failing and no disconnect keeps it. -/
theorem close_without_open_socket :
    (socket_task_run 5 1 (Sys.init (test_world 3 0 0 4 (fun _ => 1) 3 []) (fun _ => 0) 0)).map
        (fun c => (c.tr, closes_ok none c.tr)) =
      some ([Event.close 0, Event.xEventGroupWaitBits CONNECTED_BIT, Event.vTaskDelay 10],
        false) ∧
    (socket_task_run 5 4 (Sys.init (test_world 3 0 0 (-1) (fun _ => 1) 1 []) (fun _ => 0) 0)).map
        (fun c => (c.tr, closes_ok none c.tr)) =
      some ([Event.xEventGroupWaitBits CONNECTED_BIT, Event.vTaskDelay 10,
        Event.socket 3, Event.bind 3 TCP_PORT 0, Event.listen 3 1 0, Event.vTaskDelay 10,
        Event.rgb_led2_gpio_set 1 0 1, Event.accept 3 (-1),
        Event.show_socket_error_reason ErrSite.accept_server (-1), Event.close 3,
        Event.vTaskDelay 10,
        Event.rgb_led2_gpio_set 1 0 1, Event.accept 3 (-1),
        Event.show_socket_error_reason ErrSite.accept_server (-1), Event.close 3,
        Event.vTaskDelay 10], false) ∧
    (socket_task_run 5 3 (Sys.init (test_world 3 0 0 4 (fun _ => 1) 1 []) (fun _ => 0) 0)).map
        (fun c => closes_ok none c.tr) = some true := by
  decide

/-! ## The error flag -/

theorem some_session_clean (x c' : Sys) (h : some x = some c') (hx : session_clean x) :
    session_clean c' := by
  cases h
  exact hx

theorem case_recv_cmd_clean (c c' : Sys) (h : case_recv_cmd c = some c') :
    session_clean c' := by
  unfold case_recv_cmd at h
  split at h
  · exact Option.noConfusion h
  · rename_i c1 hc1
    simp only [emit] at h
    split_ifs at h with h0 h1 h2 h3
    · exact some_session_clean _ _ h (fun _ => h0)
    · exact some_session_clean _ _ h (fun _ => h0)
    · exact some_session_clean _ _ h (fun _ => h0)
    · exact some_session_clean _ _ h (fun _ => h0)
    · exact some_session_clean _ _ h (fun hs => by simp [in_session] at hs)

theorem send_image_finish_clean (c : Sys) : session_clean (send_image_finish c) := by
  unfold send_image_finish
  simp only [emit]
  split_ifs with h0 h1
  · exact fun _ => h0
  · exact fun _ => h0
  · exact fun hs => by simp [in_session] at hs

theorem case_send_image_clean (c : Sys) : session_clean (case_send_image c) := by
  unfold case_send_image
  simp only
  split_ifs
  · exact fun hs => by simp [in_session, emit] at hs
  · exact send_image_finish_clean _

theorem case_send_sensors_clean (U : Nat) (c : Sys) (h : c.s.conn_error = 0) :
    session_clean (case_send_sensors U c) := by
  unfold case_send_sensors
  simp only
  split_ifs <;> exact fun _ => h

theorem case_send_empty_clean (c : Sys) (h : c.s.conn_error = 0) :
    session_clean (case_send_empty c) := by
  unfold case_send_empty
  simp only
  split_ifs <;> exact fun _ => h

theorem case_accept_clean (c : Sys) (hst : c.s.conn_state = 2) :
    session_clean (case_accept c) := by
  unfold case_accept
  simp only
  split_ifs
  · exact fun hs => by simp [in_session, emit, hst] at hs
  · exact fun _ => rfl

theorem case_listen_clean (c : Sys) (hst : c.s.conn_state = 1) :
    session_clean (case_listen c) := by
  unfold case_listen
  simp only
  split_ifs <;> exact fun hs => by simp [in_session, emit, hst] at hs

theorem dispatch_clean (U : Nat) (c c' : Sys) (hc : session_clean c)
    (h : dispatch U c = some c') : session_clean c' := by
  unfold dispatch at h
  split at h
  · unfold case_wait_connect at h
    split_ifs at h
    exact some_session_clean _ _ h (fun hs => by simp [in_session, emit] at hs)
  · rename_i hst
    exact some_session_clean _ _ h (case_listen_clean c hst)
  · rename_i hst
    exact some_session_clean _ _ h (case_accept_clean c hst)
  · exact case_recv_cmd_clean c c' h
  · exact some_session_clean _ _ h (case_send_image_clean c)
  · rename_i hst
    exact some_session_clean _ _ h
      (case_send_sensors_clean U c (hc (by simp [in_session, hst])))
  · rename_i hst
    exact some_session_clean _ _ h
      (case_send_empty_clean c (hc (by simp [in_session, hst])))
  · exact some_session_clean _ _ h hc

theorem check_disconnected_clean (c : Sys) (hc : session_clean c) :
    session_clean (check_disconnected c) := by
  unfold check_disconnected
  split_ifs
  · exact fun hs => by simp [in_session, emit] at hs
  · exact hc

theorem socket_task_iter_clean (U : Nat) (c c' : Sys) (hc : session_clean c)
    (h : socket_task_iter U c = some c') : session_clean c' := by
  unfold socket_task_iter at h
  split at h
  · exact Option.noConfusion h
  · rename_i c1 hc1
    have h1 := dispatch_clean U _ _ (check_disconnected_clean c hc) hc1
    exact some_session_clean _ _ h h1

theorem socket_task_run_flags_clean (U : Nat) (bits : List Nat) :
    ∀ (c c' : Sys), session_clean c → socket_task_run_flags U bits c = some c' →
      session_clean c' := by
  induction bits with
  | nil =>
    intro c c' hc h
    exact some_session_clean _ _ h hc
  | cons b bs ih =>
    intro c c' hc h
    rw [socket_task_run_flags] at h
    split at h
    · exact Option.noConfusion h
    · rename_i c1 hc1
      have hcb : session_clean { c with w := { c.w with evg_bits := b } } := hc
      exact ih c1 c' (socket_task_iter_clean U _ c1 hcb hc1) h

theorem cmd_next_state_ne_accept (m : Nat) : cmd_next_state m 3 ≠ 2 := by
  unfold cmd_next_state
  split_ifs <;> decide

/-- C20.  In every state the task reaches from its initial state, whatever flags
it finds raised at the top of each iteration and whatever the calls return: if the
state is RECV_CMD, SEND_IMAGE, SEND_SENSORS or SEND_EMPTY then `conn_error` is 0.
Hence in a reached RECV_CMD a command that arrives whole is handed to the Actuator
Sink and the next state is not ACCEPT, and in a reached SEND_IMAGE whose sends all
succeed the next state is SEND_SENSORS or RECV_CMD, with `conn_error` still 0. -/
theorem conn_error_clear_in_session (U : Nat) (w : World) (buff0 : Nat → Nat) (header0 : Nat)
    (bits : List Nat) (c : Sys)
    (h : socket_task_run_flags U bits (Sys.init w buff0 header0) = some c) :
    (in_session c.s.conn_state = true → c.s.conn_error = 0) ∧
    (∀ (frags : List (List Nat)) (rest : List RecvResult),
      c.s.conn_state = 3 → c.w.evg_bits &&& DISCONNECTED_BIT = 0 →
      c.w.recv_rets = frags.map RecvResult.data ++ rest → frags.flatten.length = 9 →
      ∃ (c' : Sys) (buf : List Nat),
        socket_task_iter U c = some c' ∧ Event.uart_set_actuators_state buf ∈ c'.tr ∧
        c'.s.conn_state ≠ 2) ∧
    (c.s.conn_state = 4 → c.w.evg_bits &&& DISCONNECTED_BIT = 0 →
      (∀ k, k < 11 → 0 ≤ c.w.send_ret (c.w.n_send + k) ∧
        c.w.send_ret (c.w.n_send + k) ≤ 4092) →
      ∃ c' : Sys, socket_task_iter U c = some c' ∧ c'.s.conn_error = 0 ∧
        (c'.s.conn_state = 5 ∨ c'.s.conn_state = 3)) := by
  have hinit : session_clean (Sys.init w buff0 header0) := fun _ => rfl
  have hc : session_clean c := socket_task_run_flags_clean U bits _ c hinit h
  refine ⟨hc, ?_, ?_⟩
  · intro frags rest hst hbits hw hlen
    have herr : c.s.conn_error = 0 := hc (by simp [in_session, hst])
    obtain ⟨x, l, evs, hev, hiter⟩ :=
      iter_recv_cmd_received U c frags rest hst hbits herr hw hlen
    refine ⟨_, (store_bytes c.s.actuators_buff c.s.stray 0 frags.flatten).1, hiter, ?_, ?_⟩
    · simp only [emit, cmd_received, List.mem_append, List.mem_cons, List.mem_singleton,
        true_or, or_true]
    · simp only [emit, cmd_received, hst]
      exact cmd_next_state_ne_accept _
  · intro hst hbits hs
    have herr : c.s.conn_error = 0 := hc (by simp [in_session, hst])
    refine ⟨_, (iter_send_image U c hst hbits).trans
      (by rw [case_send_image_ok c herr hs]), ?_, ?_⟩
    · simp only [emit, image_done, image_sent, do_uart_get_data_ptr]
      split_ifs <;> exact herr
    · simp only [emit, image_done, image_sent, do_uart_get_data_ptr]
      split_ifs
      · exact Or.inl rfl
      · exact Or.inr rfl

/-- Witness of `conn_error_clear_in_session`: three iterations with Connected
raised take the task from its initial state to RECV_CMD. -/
theorem conn_error_clear_in_session_witness :
    ∃ c : Sys,
      socket_task_run_flags 5 [1, 1, 1]
        (Sys.init (test_world 3 0 0 4 (fun _ => 1) 0 []) (fun _ => 0) 0) = some c ∧
      c.s.conn_state = 3 ∧ in_session c.s.conn_state = true ∧ c.s.conn_error = 0 :=
  ⟨_, rfl, rfl, rfl,
    (conn_error_clear_in_session 5 (test_world 3 0 0 4 (fun _ => 1) 0 []) (fun _ => 0) 0
      [1, 1, 1] _ rfl).1 rfl⟩

end EPuck2Socket
